import Mathlib

/-!
# A shallow embedding of the Blackadder rendezvous core (LocalRV)

This file embeds the rendezvous core described by `src/src/localrv.hh`.
The repository ships only the header: the `.cc` bodies live elsewhere in
the project, so every operation below is modelled from the header's
doc comments together with the natural-language specification, and each
such definition is marked `Modelled from the spec:`.

Identifier fragments are modelled as natural numbers (the byte content of
a fragment is opaque to the core); a full identifier is a list of
fragments.  Node labels are natural numbers.  Following the data-model
section of the specification (parent/child relations are index pairs),
the parent and child relations of the information graph are derived from
the identifier prefixes recorded in the two indexes: the fathers of an
entity are the scopes holding the identifier obtained by dropping the
last fragment of one of the entity's identifiers, and the children of a
scope are the entities holding an identifier that extends one of the
scope's identifiers by one fragment.
-/

namespace LocalRV

/-- An identifier fragment (`PURSUIT_ID_LEN` bytes in the source, opaque here). -/
abbrev Frag := Nat

/-- A full identifier: the concatenation of one or more fragments. -/
abbrev FullID := List Frag

/-- A node label identifying a Blackadder node. -/
abbrev Label := Nat

/-- Modelled from the spec: the reserved all-ones control fragment `/FFFFFFFFFFFFFFFF`. -/
def ROOT_WILDCARD : Frag := 255

/- Status codes returned by the operation handlers.  `helper.hh` is not in
the repository snapshot, so the numeric values are chosen arbitrarily but
distinct; only their identities matter. -/

def SUCCESS : Nat := 0

def STRATEGY_MISMATCH : Nat := 1

def SCOPE_EXISTS : Nat := 2

def INFO_ITEM_EXISTS : Nat := 3

def SCOPE_DOES_NOT_EXIST : Nat := 4

def INFO_ITEM_DOES_NOT_EXIST : Nat := 5

def PARENT_DOES_NOT_EXIST : Nat := 6

/-- Modelled from the spec: the error code returned for a request whose
`(prefixID, ID)` fragment counts match no legal shape ("Any other shape is a
protocol error and returns an error code without side effects"). -/
def WRONG_SHAPE : Nat := 7

/- Request types carried in the first byte of an inbound packet. -/

def PUBLISH_SCOPE : Nat := 10

def PUBLISH_INFO : Nat := 11

def UNPUBLISH_SCOPE : Nat := 12

def UNPUBLISH_INFO : Nat := 13

def SUBSCRIBE_SCOPE : Nat := 14

def SUBSCRIBE_INFO : Nat := 15

def UNSUBSCRIBE_SCOPE : Nat := 16

def UNSUBSCRIBE_INFO : Nat := 17

/- Notification types. -/

def SCOPE_PUBLISHED : Nat := 20

def SCOPE_UNPUBLISHED : Nat := 21

def START_PUBLISH : Nat := 22

def STOP_PUBLISH : Nat := 23

def MATCH_PUB_SUBS : Nat := 24

/- Dissemination strategies. -/

def NODE_LOCAL : Nat := 30

def LINK_LOCAL : Nat := 31

def DOMAIN_LOCAL : Nat := 32

def IMPLICIT_RENDEZVOUS : Nat := 33

def BROADCAST : Nat := 34

def KANYCAST : Nat := 35

/- Association-list primitives.  The source keeps its three indexes in
Click `HashTable`s; we model them as association lists. -/

/-- Look-up in an association list (first entry whose key matches). -/
def alookup {α β : Type} [DecidableEq α] (k : α) : List (α × β) → Option β
  | [] => none
  | (a, b) :: t => if a = k then some b else alookup k t

/-- Remove every entry with the given key from an association list. -/
def aerase {α β : Type} [DecidableEq α] (k : α) : List (α × β) → List (α × β)
  | [] => []
  | (a, b) :: t => if a = k then aerase k t else (a, b) :: aerase k t

/-- Apply a function to the value of every entry with the given key. -/
def aupdate {α β : Type} [DecidableEq α] (k : α) (f : β → β) : List (α × β) → List (α × β)
  | [] => []
  | (a, b) :: t => if a = k then (a, f b) :: aupdate k f t else (a, b) :: aupdate k f t

/-- Set-like insertion into a list: a no-op when the element is present. -/
def insertL {α : Type} [DecidableEq α] (a : α) (l : List α) : List α :=
  if a ∈ l then l else a :: l

/-- Remove every occurrence of an element from a list. -/
def eraseL {α : Type} [DecidableEq α] (a : α) (l : List α) : List α :=
  l.filter (fun x => decide (x ≠ a))

/-- A scope or information item: its dissemination strategy (one byte, fixed
at creation) and its publisher and subscriber host-label sets.  The sets of
full identifiers and the parent/child links of the source objects are derived
from the indexes (see the header comment of this file). -/
structure Entity where
  strategy : Nat
  publishers : List Label
  subscribers : List Label
deriving DecidableEq

/-- A pub/sub participant (`RemoteHost`): the four per-category sets of full
identifiers it publishes or subscribes to. -/
structure HostRec where
  publishedScopes : List FullID
  subscribedScopes : List FullID
  publishedItems : List FullID
  subscribedItems : List FullID
deriving DecidableEq

/-- A freshly constructed `RemoteHost` record, before any pub/sub link. -/
def emptyHost : HostRec := ⟨[], [], [], []⟩

/-- The graph store of the rendezvous element.  `scopeIndex` and `pubIndex`
map full identifiers to the *canonical identifier* of a scope or item (the
full identifier under which the entity was created); several keys may map to
the same canonical identifier, modelling the source's several-pointers-to-one
object sharing.  `scopes` and `items` map canonical identifiers to the entity
records, and `hosts` models `pub_sub_Index`. -/
structure RV where
  scopeIndex : List (FullID × FullID)
  pubIndex : List (FullID × FullID)
  scopes : List (FullID × Entity)
  items : List (FullID × Entity)
  hosts : List (Label × HostRec)
deriving DecidableEq

/-- The empty graph store. -/
def RV.empty : RV := ⟨[], [], [], [], []⟩

/-- The keys of an index that map to the canonical identifier `c`. -/
def idsToCanon (idx : List (FullID × FullID)) (c : FullID) : List FullID :=
  (idx.filter (fun p => decide (p.2 = c))).map Prod.fst

/-- All full identifiers that resolve to the scope with canonical identifier `c`. -/
def scopeIds (s : RV) (c : FullID) : List FullID :=
  idsToCanon s.scopeIndex c

/-- All full identifiers that resolve to the item with canonical identifier `c`. -/
def itemIds (s : RV) (c : FullID) : List FullID :=
  idsToCanon s.pubIndex c

/-- Look a full identifier up in `scopeIndex`, returning the canonical
identifier and the record of the scope (the source's `Scope*`). -/
def getScope (s : RV) (f : FullID) : Option (FullID × Entity) :=
  match alookup f s.scopeIndex with
  | none => none
  | some c =>
    match alookup c s.scopes with
    | none => none
    | some e => some (c, e)

/-- Look a full identifier up in `pubIndex`, returning the canonical
identifier and the record of the item (the source's `InformationItem*`). -/
def getItem (s : RV) (f : FullID) : Option (FullID × Entity) :=
  match alookup f s.pubIndex with
  | none => none
  | some c =>
    match alookup c s.items with
    | none => none
    | some e => some (c, e)

/-- Keys of an index that name a child of the scope with canonical
identifier `c` (relative to the scope index `sidx` giving `c`'s own keys):
identifiers extending an identifier of `c` by one fragment. -/
def childKeysIn (keys : List FullID) (sidx : List (FullID × FullID)) (c : FullID) :
    List FullID :=
  keys.filter (fun k => decide (2 ≤ k.length ∧ k.dropLast ∈ idsToCanon sidx c))

/-- Keys of both indexes that name a child of the scope with canonical
identifier `c`: identifiers extending an identifier of `c` by one fragment. -/
def childKeys (s : RV) (c : FullID) : List FullID :=
  childKeysIn ((s.scopeIndex.map Prod.fst) ++ (s.pubIndex.map Prod.fst)) s.scopeIndex c

/-- Keys of `pubIndex` that name an item directly under the scope with
canonical identifier `c`. -/
def childItemKeys (s : RV) (c : FullID) : List FullID :=
  childKeysIn (s.pubIndex.map Prod.fst) s.scopeIndex c

/-- Keys of `scopeIndex` that name a scope directly under the scope with
canonical identifier `c`. -/
def childScopeKeys (s : RV) (c : FullID) : List FullID :=
  childKeysIn (s.scopeIndex.map Prod.fst) s.scopeIndex c

/-- The scope with canonical identifier `c` has no publisher, no subscriber
and no child scope or item. -/
def scopeEmpty (s : RV) (c : FullID) (e : Entity) : Prop :=
  e.publishers = [] ∧ e.subscribers = [] ∧ childKeys s c = []

instance (s : RV) (c : FullID) (e : Entity) : Decidable (scopeEmpty s c e) := by
  unfold scopeEmpty; infer_instance

/-- Canonical identifiers of the scopes holding an identifier of the list
`ids` minus its last fragment, relative to the scope index `sidx`. -/
def fathersOfIds (ids : List FullID) (sidx : List (FullID × FullID)) : List FullID :=
  (ids.filter (fun i => decide (2 ≤ i.length))).filterMap
    (fun i => alookup i.dropLast sidx)

/-- Canonical identifiers of the father scopes of the scope with canonical
identifier `c` (the scopes holding an identifier of `c` minus its last
fragment). -/
def fatherCanons (s : RV) (c : FullID) : List FullID :=
  fathersOfIds (scopeIds s c) s.scopeIndex

/-- Canonical identifiers of the father scopes of the item with canonical
identifier `c`. -/
def itemFatherCanons (s : RV) (c : FullID) : List FullID :=
  fathersOfIds (itemIds s c) s.scopeIndex

/-- The direct subscribers of the scope with canonical identifier `c`. -/
def subsOfScope (s : RV) (c : FullID) : List Label :=
  match alookup c s.scopes with
  | none => []
  | some e => e.subscribers

/-- The direct subscribers of the item with canonical identifier `c`. -/
def subsOfItem (s : RV) (c : FullID) : List Label :=
  match alookup c s.items with
  | none => []
  | some e => e.subscribers

/-- Recursion fuel for walks up the father relation and for the cascading
garbage collection; one unit per scope suffices on well-formed graphs. -/
def fuelOf (s : RV) : Nat := s.scopes.length + 1

/-- Modelled from the spec: `Scope::getSubscribers` (the class `Scope` is not
in the repository snapshot) accumulates the subscribers of a scope and,
recursively, of every father scope, i.e. of every ancestor scope along every
path; the recursion is bounded by explicit fuel. -/
def scopeSubsClosure : Nat → RV → FullID → List Label
  | 0, _, _ => []
  | fuel + 1, s, c =>
    match alookup c s.scopes with
    | none => []
    | some e => e.subscribers ++ (fatherCanons s c).flatMap (scopeSubsClosure fuel s)

/-- Modelled from the spec: the subscriber closure of an item used by the
rendezvous engine for the re-rendezvous operations — the item's own
subscribers together with the subscriber closure of every father scope
("getSubscribers() to the InformationItem and to ALL father Scopes"). -/
def fullItemClosure (s : RV) (c : FullID) : List Label :=
  subsOfItem s c ++ (itemFatherCanons s c).flatMap (scopeSubsClosure (fuelOf s) s)

/-- Modelled from the spec: the subscriber set `advertise_info` hands to
`rendezvous` — "the set of subscribers is calculated (by calling
getSubscribers() to the InformationItem and to the father Scope)", where the
father scope is the one named by the request's `prefixID`. -/
def advertiseSubs (s : RV) (fc : FullID) (c : FullID) : List Label :=
  subsOfItem s c ++ scopeSubsClosure (fuelOf s) s fc

/-- The ancestor scopes of a scope along every path towards the roots,
inclusive of the scope itself: the scope together with the ancestors of each
of its father scopes.  This definition follows the specification's words ("of
every ancestor scope along every path from any root to `p`") and exists to be
compared with the subscriber accumulation `scopeSubsClosure` of the source's
recursive `getSubscribers`. -/
def scopeAncestors : Nat → RV → FullID → List FullID
  | 0, _, _ => []
  | fuel + 1, s, c =>
    match alookup c s.scopes with
    | none => []
    | some _ => c :: (fatherCanons s c).flatMap (scopeAncestors fuel s)

/-- The ancestor scopes of the item with canonical identifier `c`: the
ancestors of each of its father scopes. -/
def itemAncestors (s : RV) (c : FullID) : List FullID :=
  (itemFatherCanons s c).flatMap (scopeAncestors (fuelOf s) s)

/-- Outbound notifications emitted by the engine during a request.  LIPSIN
forwarding identifiers are opaque blobs, modelled as byte lists. -/
inductive Event where
  /-- A `SCOPE_PUBLISHED` / `SCOPE_UNPUBLISHED` style notification of type
  `ntype`, delivered to the listed subscriber labels and carrying the listed
  full identifiers. -/
  | notify (ntype : Nat) (recipients : List Label) (ids : List FullID)
  /-- A `START_PUBLISH` notification to the local proxy, carrying the item's
  identifiers and a forwarding-identifier blob. -/
  | startPublish (ids : List FullID) (fid : List Nat)
  /-- A `STOP_PUBLISH` notification to the local proxy. -/
  | stopPublish (ids : List FullID)
  /-- A request published to the topology manager; the payload is the
  serialized request body. -/
  | tmRequest (payload : List Nat)
deriving DecidableEq

/-- Modelled from the spec: `notifyLocalPublisher` — "If FID is NULL then a
STOP_PUBLISH notification is published locally.  Else a START_PUBLISH
notification is published." -/
def notifyLocalPublisher (ids : List FullID) (FID : Option (List Nat)) : Event :=
  match FID with
  | none => Event.stopPublish ids
  | some f => Event.startPublish ids f

/-- Modelled from the spec: the internal link identifier used as forwarding
identifier under the node-local strategy (an opaque blob). -/
def internalLinkId : List Nat := [0]

/-- Modelled from the spec: the single-hop link identifier used under the
link-local strategy (an opaque blob). -/
def singleHopLinkId : List Nat := [1]

/-- Modelled from the spec: the broadcast forwarding identifier (an opaque
blob). -/
def broadcastFID : List Nat := [2]

/-- Serialize a list of node labels: a count byte followed by the labels. -/
def encodeLabels (ls : List Label) : List Nat :=
  ls.length :: ls

/-- Serialize a list of full identifiers: a count byte followed by each
identifier as a fragment count and its fragments (the outbound notification
body format of the specification). -/
def encodeIds (ids : List FullID) : List Nat :=
  ids.length :: ids.flatMap (fun i => i.length :: i)

/-- Modelled from the spec: the body of the `MATCH_PUB_SUBS` request built by
`requestTMAssistanceForRendezvous` — "This publication will contain the type
of this request which is MATCH_PUB_SUBS, the set of labels for publishers and
subscribers and all Information Identifiers."  Per the source's own `@todo`
("VERY SOON I HAVE TO ADD THE STRATEGY FIELD HERE") the strategy byte is NOT
part of the request. -/
def mkMatchPubSubsPayload (pubs subs : List Label) (ids : List FullID) : List Nat :=
  MATCH_PUB_SUBS :: (encodeLabels pubs ++ encodeLabels subs ++ encodeIds ids)

/-- The `MATCH_PUB_SUBS` request body as the specification's rendezvous
section words it: "a single MATCH_PUB_SUBS request containing: publisher
label set, subscriber label set, the item's full-identifier set, and the
strategy".  This definition follows the specification's words and exists only
to be compared with `mkMatchPubSubsPayload`, which follows the source. -/
def mkMatchPubSubsPayloadSpec (pubs subs : List Label) (ids : List FullID)
    (strategy : Nat) : List Nat :=
  MATCH_PUB_SUBS :: (encodeLabels pubs ++ encodeLabels subs ++ encodeIds ids ++ [strategy])

/-- Modelled from the spec: `requestTMAssistanceForRendezvous` publishes the
single `MATCH_PUB_SUBS` request to the topology manager. -/
def requestTMAssistanceForRendezvous (pubs subs : List Label)
    (ids : List FullID) : List Event :=
  [Event.tmRequest (mkMatchPubSubsPayload pubs subs ids)]

/-- Modelled from the spec: `requestTMAssistanceForNotifyingSubscribers`
publishes a request asking the topology manager to notify the listed
subscribers about a scope.  Its `request_type` argument is, per the source
("currently unused BUT BERY SOON THIS HAS TO BE SOMETHING LIKE NEW_SCOPE and
DELETED_SCOPE"), not consulted when the request is built: the notification
type byte is the fixed `SCOPE_PUBLISHED`. -/
def requestTMAssistanceForNotifyingSubscribers (request_type : Nat)
    (IDs : List FullID) (subscribers : List Label) (strategy : Nat) : List Nat :=
  SCOPE_PUBLISHED :: (encodeLabels subscribers ++ encodeIds IDs ++ [strategy])

/-- Modelled from the spec: the probing request the kanycast path publishes
to the topology manager (`kanycast_askTMforRendezvous`); only its distinctness
from the `MATCH_PUB_SUBS` request matters here. -/
def kanycastProbePayload (pubs subs : List Label) (ids : List FullID) : List Nat :=
  KANYCAST :: (encodeLabels pubs ++ encodeLabels subs ++ encodeIds ids)

/-- Modelled from the spec: the strategy-specific matching step of the
rendezvous engine for the item with canonical identifier `c`, entity record
`e` and closed subscriber set `subs`.  If a publisher and a subscriber exist
the strategy decides the outbound notifications; otherwise the previously
active publishers are told to stop (a NULL forwarding identifier selects
`STOP_PUBLISH`). -/
def rendezvousCore (s : RV) (c : FullID) (e : Entity) (subs : List Label) :
    List Event :=
  if e.publishers ≠ [] ∧ subs ≠ [] then
    if e.strategy = NODE_LOCAL then
      [notifyLocalPublisher (itemIds s c) (some internalLinkId)]
    else if e.strategy = LINK_LOCAL then
      e.publishers.map (fun _ => notifyLocalPublisher (itemIds s c) (some singleHopLinkId))
    else if e.strategy = DOMAIN_LOCAL then
      requestTMAssistanceForRendezvous e.publishers subs (itemIds s c)
    else if e.strategy = IMPLICIT_RENDEZVOUS then
      []
    else if e.strategy = BROADCAST then
      [notifyLocalPublisher (itemIds s c) (some broadcastFID)]
    else if e.strategy = KANYCAST then
      [Event.tmRequest (kanycastProbePayload e.publishers subs (itemIds s c))]
    else
      []
  else
    [notifyLocalPublisher (itemIds s c) none]

/-- Run rendezvous for the item with canonical identifier `c` using the full
ancestor subscriber closure (the re-rendezvous form used by the subscribe,
unsubscribe, unpublish and readvertise paths). -/
def rendezvousAt (s : RV) (c : FullID) : List Event :=
  match alookup c s.items with
  | none => []
  | some e => rendezvousCore s c e (fullItemClosure s c)

/- Link / unlink mutators.  Each updates both sides of the host-entity
relation, as the graph-store section of the specification requires. -/

/-- Add `h` to the publishers of the scope with canonical identifier `c` and
the identifier `f` to `h`'s published scopes. -/
def linkScopePublisher (s : RV) (c : FullID) (f : FullID) (h : Label) : RV :=
  { s with
    scopes := aupdate c (fun e => { e with publishers := insertL h e.publishers }) s.scopes
    hosts := aupdate h (fun r => { r with publishedScopes := insertL f r.publishedScopes }) s.hosts }

/-- Remove `h` from the publishers of the scope with canonical identifier `c`
and the identifier `f` from `h`'s published scopes. -/
def unlinkScopePublisher (s : RV) (c : FullID) (f : FullID) (h : Label) : RV :=
  { s with
    scopes := aupdate c (fun e => { e with publishers := eraseL h e.publishers }) s.scopes
    hosts := aupdate h (fun r => { r with publishedScopes := eraseL f r.publishedScopes }) s.hosts }

/-- Add `h` to the subscribers of the scope with canonical identifier `c` and
the identifier `f` to `h`'s subscribed scopes. -/
def linkScopeSubscriber (s : RV) (c : FullID) (f : FullID) (h : Label) : RV :=
  { s with
    scopes := aupdate c (fun e => { e with subscribers := insertL h e.subscribers }) s.scopes
    hosts := aupdate h (fun r => { r with subscribedScopes := insertL f r.subscribedScopes }) s.hosts }

/-- Remove `h` from the subscribers of the scope with canonical identifier
`c` and the identifier `f` from `h`'s subscribed scopes. -/
def unlinkScopeSubscriber (s : RV) (c : FullID) (f : FullID) (h : Label) : RV :=
  { s with
    scopes := aupdate c (fun e => { e with subscribers := eraseL h e.subscribers }) s.scopes
    hosts := aupdate h (fun r => { r with subscribedScopes := eraseL f r.subscribedScopes }) s.hosts }

/-- Add `h` to the publishers of the item with canonical identifier `c` and
the identifier `f` to `h`'s published items. -/
def linkItemPublisher (s : RV) (c : FullID) (f : FullID) (h : Label) : RV :=
  { s with
    items := aupdate c (fun e => { e with publishers := insertL h e.publishers }) s.items
    hosts := aupdate h (fun r => { r with publishedItems := insertL f r.publishedItems }) s.hosts }

/-- Remove `h` from the publishers of the item with canonical identifier `c`
and the identifier `f` from `h`'s published items. -/
def unlinkItemPublisher (s : RV) (c : FullID) (f : FullID) (h : Label) : RV :=
  { s with
    items := aupdate c (fun e => { e with publishers := eraseL h e.publishers }) s.items
    hosts := aupdate h (fun r => { r with publishedItems := eraseL f r.publishedItems }) s.hosts }

/-- Add `h` to the subscribers of the item with canonical identifier `c` and
the identifier `f` to `h`'s subscribed items. -/
def linkItemSubscriber (s : RV) (c : FullID) (f : FullID) (h : Label) : RV :=
  { s with
    items := aupdate c (fun e => { e with subscribers := insertL h e.subscribers }) s.items
    hosts := aupdate h (fun r => { r with subscribedItems := insertL f r.subscribedItems }) s.hosts }

/-- Remove `h` from the subscribers of the item with canonical identifier `c`
and the identifier `f` from `h`'s subscribed items. -/
def unlinkItemSubscriber (s : RV) (c : FullID) (f : FullID) (h : Label) : RV :=
  { s with
    items := aupdate c (fun e => { e with subscribers := eraseL h e.subscribers }) s.items
    hosts := aupdate h (fun r => { r with subscribedItems := eraseL f r.subscribedItems }) s.hosts }

/-- Modelled from the spec: the cascading garbage collector
(`maybeGarbageCollect`) over a work list of scope canonical identifiers.  A
scope with no publisher, no subscriber and no child is deleted: every one of
its identifiers is erased from `scopeIndex`, the record is removed, and the
collector recurses into each erstwhile father scope. -/
def gcScopes : Nat → RV → List FullID → RV
  | _, s, [] => s
  | 0, s, _ :: _ => s
  | fuel + 1, s, c :: rest =>
    match alookup c s.scopes with
    | none => gcScopes fuel s rest
    | some e =>
      if e.publishers = [] ∧ e.subscribers = [] ∧ childKeys s c = [] then
        let parents := fatherCanons s c
        let s' : RV :=
          { s with
            scopeIndex := s.scopeIndex.filter (fun p => decide (p.2 ≠ c))
            scopes := aerase c s.scopes }
        gcScopes fuel s' (parents ++ rest)
      else gcScopes fuel s rest

/-- Modelled from the spec: garbage-collect the item with canonical
identifier `c` when both its publisher and subscriber sets are empty
(items have no children): every identifier of the item is erased from
`pubIndex`, the record is removed, and the cascading scope collector runs on
the erstwhile father scopes. -/
def gcItemIfEmpty (s : RV) (c : FullID) : RV :=
  match alookup c s.items with
  | none => s
  | some e =>
    if e.publishers = [] ∧ e.subscribers = [] then
      let parents := itemFatherCanons s c
      let s' : RV :=
        { s with
          pubIndex := s.pubIndex.filter (fun p => decide (p.2 ≠ c))
          items := aerase c s.items }
      gcScopes (fuelOf s') s' parents
    else s

/- Operation handlers.  Each returns the new graph store, a status code and
the outbound notifications, mirroring the source's
`unsigned int op(RemoteHost*, String &ID, String &prefixID, unsigned char &strategy)`
signatures.  All are modelled from the spec: the `.cc` bodies are not in the
repository snapshot. -/

/-- Modelled from the spec: `publish_root_scope`.  If absent the root scope
is created with the given strategy; if present the strategy must match; the
publisher is linked; no notification is emitted. -/
def publish_root_scope (s : RV) (h : Label) (ID : FullID) (strategy : Nat) :
    RV × Nat × List Event :=
  match getScope s ID with
  | some (c, e) =>
    if e.strategy = strategy then (linkScopePublisher s c ID h, SUCCESS, [])
    else (s, STRATEGY_MISMATCH, [])
  | none =>
    let s' : RV :=
      { s with
        scopeIndex := (ID, ID) :: s.scopeIndex
        scopes := (ID, ⟨strategy, [], []⟩) :: s.scopes }
    (linkScopePublisher s' ID ID h, SUCCESS, [])

/-- Modelled from the spec: `publish_inner_scope` with `fullID = prefixID ++ ID`.
The identifier must not name an item; the father scope must exist; an
existing scope requires a strategy match; a new scope requires the father's
strategy, is created under the father, and the father's direct subscribers
are notified with `SCOPE_PUBLISHED`. -/
def publish_inner_scope (s : RV) (h : Label) (ID prefixID : FullID)
    (strategy : Nat) : RV × Nat × List Event :=
  let fullID := prefixID ++ ID
  if (alookup fullID s.pubIndex).isSome then (s, INFO_ITEM_EXISTS, [])
  else
    match getScope s prefixID with
    | none => (s, PARENT_DOES_NOT_EXIST, [])
    | some (_, fe) =>
      match getScope s fullID with
      | some (c, e) =>
        if e.strategy = strategy then (linkScopePublisher s c fullID h, SUCCESS, [])
        else (s, STRATEGY_MISMATCH, [])
      | none =>
        if fe.strategy = strategy then
          let s' : RV :=
            { s with
              scopeIndex := (fullID, fullID) :: s.scopeIndex
              scopes := (fullID, ⟨strategy, [], []⟩) :: s.scopes }
          (linkScopePublisher s' fullID fullID h, SUCCESS,
            [Event.notify SCOPE_PUBLISHED fe.subscribers [fullID]])
        else (s, STRATEGY_MISMATCH, [])

/-- The direct subscribers of the father scopes of the scope with canonical
identifier `c` — the hosts "already subscribed via the source's other
parents" that the republish notifier excludes. -/
def fatherSubsOf (s : RV) (c : FullID) : List Label :=
  (fatherCanons s c).flatMap (subsOfScope s)

/-- Modelled from the spec: `republish_inner_scope`.  `ID` carries at least
two fragments: its last fragment is the new local identifier and the leading
fragments are an existing identifier of the source scope.  The target
identifier `prefixID ++ [last]` must not name an item; the father and the
source must exist; if the target already names the source the strategy must
match the source's and the publisher is linked; if the target is free the
request strategy must equal the father's, the target identifier is added to
the source scope, the publisher is linked, and the father's direct
subscribers are notified — except those already subscribed via the source's
other father scopes. -/
def republish_inner_scope (s : RV) (h : Label) (ID prefixID : FullID)
    (strategy : Nat) : RV × Nat × List Event :=
  let suffixID := ID.drop (ID.length - 1)
  let fullID := prefixID ++ suffixID
  if (alookup fullID s.pubIndex).isSome then (s, INFO_ITEM_EXISTS, [])
  else
    match getScope s prefixID with
    | none => (s, PARENT_DOES_NOT_EXIST, [])
    | some (_, fe) =>
      match getScope s ID.dropLast with
      | none => (s, SCOPE_DOES_NOT_EXIST, [])
      | some (sc, _) =>
        match getScope s fullID with
        | some (c, e) =>
          if c = sc then
            if e.strategy = strategy then (linkScopePublisher s c fullID h, SUCCESS, [])
            else (s, STRATEGY_MISMATCH, [])
          else (s, SCOPE_EXISTS, [])
        | none =>
          if fe.strategy = strategy then
            let excluded := fatherSubsOf s sc
            let s' : RV := { s with scopeIndex := (fullID, sc) :: s.scopeIndex }
            let s'' := linkScopePublisher s' sc fullID h
            (s'', SUCCESS,
              [Event.notify SCOPE_PUBLISHED
                (fe.subscribers.filter (fun l => decide (l ∉ excluded)))
                (scopeIds s'' sc)])
          else (s, STRATEGY_MISMATCH, [])

/-- Modelled from the spec: `publish_scope` classifies the request by the
fragment counts of `(prefixID, ID)`: `(0, 1)` publishes a root scope,
`(≥1, 1)` an inner scope, `(≥1, ≥2)` republishes an existing scope; any
other shape is a protocol error answered without side effects. -/
def publish_scope (s : RV) (h : Label) (ID prefixID : FullID) (strategy : Nat) :
    RV × Nat × List Event :=
  if prefixID = [] ∧ ID.length = 1 then publish_root_scope s h ID strategy
  else if prefixID ≠ [] ∧ ID.length = 1 then publish_inner_scope s h ID prefixID strategy
  else if prefixID ≠ [] ∧ 2 ≤ ID.length then republish_inner_scope s h ID prefixID strategy
  else (s, WRONG_SHAPE, [])

/-- Modelled from the spec: `advertise_info` with `fullID = prefixID ++ ID`.
The identifier must not name a scope; the father scope must exist; an
existing item requires a strategy match, a new item the father's strategy;
the publisher is linked and rendezvous runs with the subscribers of the item
and of the father scope named by `prefixID`. -/
def advertise_info (s : RV) (h : Label) (ID prefixID : FullID)
    (strategy : Nat) : RV × Nat × List Event :=
  let fullID := prefixID ++ ID
  if (alookup fullID s.scopeIndex).isSome then (s, SCOPE_EXISTS, [])
  else
    match getScope s prefixID with
    | none => (s, PARENT_DOES_NOT_EXIST, [])
    | some (fc, fe) =>
      match getItem s fullID with
      | some (c, e) =>
        if e.strategy = strategy then
          let s' := linkItemPublisher s c fullID h
          match alookup c s'.items with
          | none => (s', SUCCESS, [])
          | some e' => (s', SUCCESS, rendezvousCore s' c e' (advertiseSubs s' fc c))
        else (s, STRATEGY_MISMATCH, [])
      | none =>
        if fe.strategy = strategy then
          let s' : RV :=
            { s with
              pubIndex := (fullID, fullID) :: s.pubIndex
              items := (fullID, ⟨strategy, [], []⟩) :: s.items }
          let s'' := linkItemPublisher s' fullID fullID h
          match alookup fullID s''.items with
          | none => (s'', SUCCESS, [])
          | some e' => (s'', SUCCESS, rendezvousCore s'' fullID e' (advertiseSubs s'' fc fullID))
        else (s, STRATEGY_MISMATCH, [])

/-- Modelled from the spec: `readvertise_info`.  The last fragment of `ID` is
the new local identifier; the leading fragments are an existing identifier of
the source item.  The target must not name a scope; the father and the source
must exist; a previously republished target requires a strategy match, a
fresh target the father's strategy and the target identifier is added to the
source item; the publisher is linked and rendezvous runs with the closure of
the item's subscribers and of ALL its father scopes. -/
def readvertise_info (s : RV) (h : Label) (ID prefixID : FullID)
    (strategy : Nat) : RV × Nat × List Event :=
  let suffixID := ID.drop (ID.length - 1)
  let fullID := prefixID ++ suffixID
  if (alookup fullID s.scopeIndex).isSome then (s, SCOPE_EXISTS, [])
  else
    match getScope s prefixID with
    | none => (s, PARENT_DOES_NOT_EXIST, [])
    | some (_, fe) =>
      match getItem s ID.dropLast with
      | none => (s, INFO_ITEM_DOES_NOT_EXIST, [])
      | some (sc, _) =>
        match getItem s fullID with
        | some (c, e) =>
          if c = sc then
            if e.strategy = strategy then
              let s' := linkItemPublisher s c fullID h
              (s', SUCCESS, rendezvousAt s' c)
            else (s, STRATEGY_MISMATCH, [])
          else (s, INFO_ITEM_EXISTS, [])
        | none =>
          if fe.strategy = strategy then
            let s' : RV := { s with pubIndex := (fullID, sc) :: s.pubIndex }
            let s'' := linkItemPublisher s' sc fullID h
            (s'', SUCCESS, rendezvousAt s'' sc)
          else (s, STRATEGY_MISMATCH, [])

/-- Modelled from the spec: `publish_info` classifies the request by the
fragment counts of `(prefixID, ID)`: `(≥1, 1)` advertises an item under an
existing scope, `(≥1, ≥2)` republishes an existing item; items have no root
form; any other shape is a protocol error answered without side effects. -/
def publish_info (s : RV) (h : Label) (ID prefixID : FullID) (strategy : Nat) :
    RV × Nat × List Event :=
  if prefixID ≠ [] ∧ ID.length = 1 then advertise_info s h ID prefixID strategy
  else if prefixID ≠ [] ∧ 2 ≤ ID.length then readvertise_info s h ID prefixID strategy
  else (s, WRONG_SHAPE, [])

/-- Modelled from the spec: the core of `unpublish_info` at a resolved full
identifier.  The item must exist with a matching strategy; the publisher is
unlinked; rendezvous re-runs with the remaining publisher and subscriber
sets; the item is garbage-collected when both sets became empty. -/
def unpublish_info_at (s : RV) (h : Label) (fullID : FullID) (strategy : Nat) :
    RV × Nat × List Event :=
  match getItem s fullID with
  | none => (s, INFO_ITEM_DOES_NOT_EXIST, [])
  | some (c, e) =>
    if e.strategy = strategy then
      let s' := unlinkItemPublisher s c fullID h
      let ev := rendezvousAt s' c
      (gcItemIfEmpty s' c, SUCCESS, ev)
    else (s, STRATEGY_MISMATCH, [])

/-- Modelled from the spec: `unpublish_info` — shape `(≥1, 1)`. -/
def unpublish_info (s : RV) (h : Label) (ID prefixID : FullID) (strategy : Nat) :
    RV × Nat × List Event :=
  if prefixID ≠ [] ∧ ID.length = 1 then unpublish_info_at s h (prefixID ++ ID) strategy
  else (s, WRONG_SHAPE, [])

/-- Modelled from the spec: the core of `unpublish_scope` at a resolved full
identifier.  The scope must exist with a matching strategy; every item
directly under the scope is unpublished on behalf of the same host; the
publisher is unlinked; if the scope then has no publisher, subscriber or
child, the requested identifier branch is removed — the record itself only
when this was its last identifier — and the collector cascades into the
father of the removed branch. -/
def unpublish_scope_at (s : RV) (h : Label) (fullID : FullID) (strategy : Nat) :
    RV × Nat × List Event :=
  match getScope s fullID with
  | none => (s, SCOPE_DOES_NOT_EXIST, [])
  | some (c, e) =>
    if e.strategy = strategy then
      let step := (childItemKeys s c).foldl
        (fun (acc : RV × List Event) k =>
          let r := unpublish_info_at acc.1 h k strategy
          (r.1, acc.2 ++ r.2.2)) (s, [])
      let s₂ := unlinkScopePublisher step.1 c fullID h
      match alookup c s₂.scopes with
      | none => (s₂, SUCCESS, step.2)
      | some e₂ =>
        if e₂.publishers = [] ∧ e₂.subscribers = [] ∧ childKeys s₂ c = [] then
          let s₃ : RV := { s₂ with scopeIndex := aerase fullID s₂.scopeIndex }
          let s₄ : RV :=
            if scopeIds s₃ c = [] then { s₃ with scopes := aerase c s₃.scopes } else s₃
          let s₅ :=
            if 2 ≤ fullID.length then
              match alookup fullID.dropLast s₄.scopeIndex with
              | some pc => gcScopes (fuelOf s₄) s₄ [pc]
              | none => s₄
            else s₄
          (s₅, SUCCESS, step.2)
        else (s₂, SUCCESS, step.2)
    else (s, STRATEGY_MISMATCH, [])

/-- Modelled from the spec: `unpublish_scope` — shape `(0, 1)` for a root
scope or `(≥1, 1)` for an inner scope. -/
def unpublish_scope (s : RV) (h : Label) (ID prefixID : FullID) (strategy : Nat) :
    RV × Nat × List Event :=
  if ID.length = 1 then unpublish_scope_at s h (prefixID ++ ID) strategy
  else (s, WRONG_SHAPE, [])

/-- `SCOPE_PUBLISHED` notifications telling the subscriber `h` about every
scope directly under the scope with canonical identifier `c`. -/
def notifyChildScopes (s : RV) (c : FullID) (h : Label) : List Event :=
  (childScopeKeys s c).filterMap
    (fun k =>
      match alookup k s.scopeIndex with
      | none => none
      | some kc => some (Event.notify SCOPE_PUBLISHED [h] (scopeIds s kc)))

/-- Re-run rendezvous for every item directly under the scope with canonical
identifier `c`, each with its full subscriber closure. -/
def rendezvousChildItems (s : RV) (c : FullID) : List Event :=
  (childItemKeys s c).flatMap
    (fun k =>
      match alookup k s.pubIndex with
      | none => []
      | some kc => rendezvousAt s kc)

/-- Modelled from the spec: `subscribe_root_scope`.  An absent root scope is
created with the request strategy and the subscription added; an existing one
requires a strategy match, the subscriber is linked, it is notified of every
direct child scope, and rendezvous runs for every direct child item. -/
def subscribe_root_scope (s : RV) (h : Label) (ID : FullID) (strategy : Nat) :
    RV × Nat × List Event :=
  match getScope s ID with
  | some (c, e) =>
    if e.strategy = strategy then
      let s' := linkScopeSubscriber s c ID h
      (s', SUCCESS, notifyChildScopes s' c h ++ rendezvousChildItems s' c)
    else (s, STRATEGY_MISMATCH, [])
  | none =>
    let s' : RV :=
      { s with
        scopeIndex := (ID, ID) :: s.scopeIndex
        scopes := (ID, ⟨strategy, [], []⟩) :: s.scopes }
    (linkScopeSubscriber s' ID ID h, SUCCESS, [])

/-- Modelled from the spec: `subscribe_inner_scope` with
`fullID = prefixID ++ ID`.  The identifier must not name an item and the
father scope must exist; an existing scope requires a strategy match, a new
one the father's strategy (its creation is announced to the father's direct
subscribers first); the subscriber is linked, notified of every direct child
scope, and rendezvous runs for every direct child item. -/
def subscribe_inner_scope (s : RV) (h : Label) (ID prefixID : FullID)
    (strategy : Nat) : RV × Nat × List Event :=
  let fullID := prefixID ++ ID
  if (alookup fullID s.pubIndex).isSome then (s, INFO_ITEM_EXISTS, [])
  else
    match getScope s prefixID with
    | none => (s, PARENT_DOES_NOT_EXIST, [])
    | some (_, fe) =>
      match getScope s fullID with
      | some (c, e) =>
        if e.strategy = strategy then
          let s' := linkScopeSubscriber s c fullID h
          (s', SUCCESS, notifyChildScopes s' c h ++ rendezvousChildItems s' c)
        else (s, STRATEGY_MISMATCH, [])
      | none =>
        if fe.strategy = strategy then
          let s' : RV :=
            { s with
              scopeIndex := (fullID, fullID) :: s.scopeIndex
              scopes := (fullID, ⟨strategy, [], []⟩) :: s.scopes }
          let s'' := linkScopeSubscriber s' fullID fullID h
          (s'', SUCCESS, [Event.notify SCOPE_PUBLISHED fe.subscribers [fullID]])
        else (s, STRATEGY_MISMATCH, [])

/-- Modelled from the spec: `subscribe_scope` — shape `(0, 1)` subscribes a
root scope, `(≥1, 1)` an inner scope; any other shape is a protocol error
answered without side effects. -/
def subscribe_scope (s : RV) (h : Label) (ID prefixID : FullID) (strategy : Nat) :
    RV × Nat × List Event :=
  if prefixID = [] ∧ ID.length = 1 then subscribe_root_scope s h ID strategy
  else if prefixID ≠ [] ∧ ID.length = 1 then subscribe_inner_scope s h ID prefixID strategy
  else (s, WRONG_SHAPE, [])

/-- Modelled from the spec: `subscribe_info` with `fullID = prefixID ++ ID`,
shape `(≥1, 1)`.  The father scope must exist and the identifier must not
name a scope; an existing item requires a strategy match, a new item the
father's strategy; the subscriber is linked and rendezvous runs for this item
with its full subscriber closure. -/
def subscribe_info (s : RV) (h : Label) (ID prefixID : FullID) (strategy : Nat) :
    RV × Nat × List Event :=
  if prefixID ≠ [] ∧ ID.length = 1 then
    let fullID := prefixID ++ ID
    if (alookup fullID s.scopeIndex).isSome then (s, SCOPE_EXISTS, [])
    else
      match getScope s prefixID with
      | none => (s, PARENT_DOES_NOT_EXIST, [])
      | some (_, fe) =>
        match getItem s fullID with
        | some (c, e) =>
          if e.strategy = strategy then
            let s' := linkItemSubscriber s c fullID h
            (s', SUCCESS, rendezvousAt s' c)
          else (s, STRATEGY_MISMATCH, [])
        | none =>
          if fe.strategy = strategy then
            let s' : RV :=
              { s with
                pubIndex := (fullID, fullID) :: s.pubIndex
                items := (fullID, ⟨strategy, [], []⟩) :: s.items }
            let s'' := linkItemSubscriber s' fullID fullID h
            (s'', SUCCESS, rendezvousAt s'' fullID)
          else (s, STRATEGY_MISMATCH, [])
  else (s, WRONG_SHAPE, [])

/-- Modelled from the spec: the core of `unsubscribe_scope` at a resolved
full identifier.  The scope must exist with a matching strategy; the
subscriber is unlinked; rendezvous re-runs for every item directly under the
scope; the scope is garbage-collected (with cascade) if it became empty. -/
def unsubscribe_scope_at (s : RV) (h : Label) (fullID : FullID) (strategy : Nat) :
    RV × Nat × List Event :=
  match getScope s fullID with
  | none => (s, SCOPE_DOES_NOT_EXIST, [])
  | some (c, e) =>
    if e.strategy = strategy then
      let s' := unlinkScopeSubscriber s c fullID h
      let ev := rendezvousChildItems s' c
      (gcScopes (fuelOf s') s' [c], SUCCESS, ev)
    else (s, STRATEGY_MISMATCH, [])

/-- Modelled from the spec: `unsubscribe_scope` — shape `(0, 1)` or `(≥1, 1)`. -/
def unsubscribe_scope (s : RV) (h : Label) (ID prefixID : FullID) (strategy : Nat) :
    RV × Nat × List Event :=
  if ID.length = 1 then unsubscribe_scope_at s h (prefixID ++ ID) strategy
  else (s, WRONG_SHAPE, [])

/-- Modelled from the spec: `unsubscribe_info` — shape `(≥1, 1)`.  The item
must exist with a matching strategy; the subscriber is unlinked; rendezvous
re-runs for this item; the item is garbage-collected if it became empty. -/
def unsubscribe_info (s : RV) (h : Label) (ID prefixID : FullID) (strategy : Nat) :
    RV × Nat × List Event :=
  if prefixID ≠ [] ∧ ID.length = 1 then
    let fullID := prefixID ++ ID
    match getItem s fullID with
    | none => (s, INFO_ITEM_DOES_NOT_EXIST, [])
    | some (c, e) =>
      if e.strategy = strategy then
        let s' := unlinkItemSubscriber s c fullID h
        let ev := rendezvousAt s' c
        (gcItemIfEmpty s' c, SUCCESS, ev)
      else (s, STRATEGY_MISMATCH, [])
  else (s, WRONG_SHAPE, [])

/-- An inbound packet after envelope stripping, at fragment granularity:
the identifier of the API event it was published to (canonically
`ROOT_WILDCARD / nodeLabel`), the request type byte, the two identifiers and
the strategy byte. -/
structure Packet where
  envScope : FullID
  envLabel : Label
  rtype : Nat
  ID : FullID
  prefixID : FullID
  strategy : Nat
deriving DecidableEq

/-- Modelled from the spec: `getRemoteHost` — "It looks into the
LocalRV::pub_sub_Index for the RemoteHost identified by the node label … an
existing RemoteHost or a constructed object": a host record is created lazily
by label on first reference and stored in `pub_sub_Index`. -/
def ensureHost (s : RV) (h : Label) : RV :=
  if (alookup h s.hosts).isSome then s
  else { s with hosts := (h, emptyHost) :: s.hosts }

/-- Modelled from the spec: `push`.  A publication whose envelope identifier
is not of the control form `ROOT_WILDCARD / nodeLabel` is a protocol
violation by the peer: it is logged and dropped (status `none`).  Otherwise
the issuer's host record is resolved (created on first reference), the
request fields are read, and the handler for the type byte runs; an unknown
type byte is likewise logged and dropped. -/
def push (s : RV) (p : Packet) : RV × Option Nat × List Event :=
  if p.envScope = [ROOT_WILDCARD] then
    let s₀ := ensureHost s p.envLabel
    if p.rtype = PUBLISH_SCOPE then
      let r := publish_scope s₀ p.envLabel p.ID p.prefixID p.strategy
      (r.1, some r.2.1, r.2.2)
    else if p.rtype = PUBLISH_INFO then
      let r := publish_info s₀ p.envLabel p.ID p.prefixID p.strategy
      (r.1, some r.2.1, r.2.2)
    else if p.rtype = UNPUBLISH_SCOPE then
      let r := unpublish_scope s₀ p.envLabel p.ID p.prefixID p.strategy
      (r.1, some r.2.1, r.2.2)
    else if p.rtype = UNPUBLISH_INFO then
      let r := unpublish_info s₀ p.envLabel p.ID p.prefixID p.strategy
      (r.1, some r.2.1, r.2.2)
    else if p.rtype = SUBSCRIBE_SCOPE then
      let r := subscribe_scope s₀ p.envLabel p.ID p.prefixID p.strategy
      (r.1, some r.2.1, r.2.2)
    else if p.rtype = SUBSCRIBE_INFO then
      let r := subscribe_info s₀ p.envLabel p.ID p.prefixID p.strategy
      (r.1, some r.2.1, r.2.2)
    else if p.rtype = UNSUBSCRIBE_SCOPE then
      let r := unsubscribe_scope s₀ p.envLabel p.ID p.prefixID p.strategy
      (r.1, some r.2.1, r.2.2)
    else if p.rtype = UNSUBSCRIBE_INFO then
      let r := unsubscribe_info s₀ p.envLabel p.ID p.prefixID p.strategy
      (r.1, some r.2.1, r.2.2)
    else (s₀, none, [])
  else (s, none, [])

/-- A request packet is malformed when its envelope is not of the control
form, its type byte names no operation, or its identifier shape fits no
legal classification for that operation (the fragment-level counterpart of
the impossible shapes and unknown type bytes of the error-handling section). -/
def malformed (p : Packet) : Prop :=
  p.envScope ≠ [ROOT_WILDCARD]
    ∨ (p.rtype ∉ [PUBLISH_SCOPE, PUBLISH_INFO, UNPUBLISH_SCOPE, UNPUBLISH_INFO,
        SUBSCRIBE_SCOPE, SUBSCRIBE_INFO, UNSUBSCRIBE_SCOPE, UNSUBSCRIBE_INFO])
    ∨ ((p.rtype = PUBLISH_SCOPE ∨ p.rtype = SUBSCRIBE_SCOPE)
        ∧ ¬(p.ID.length = 1 ∨ (p.prefixID ≠ [] ∧ 2 ≤ p.ID.length ∧ p.rtype = PUBLISH_SCOPE)))
    ∨ (p.rtype = PUBLISH_INFO ∧ ¬(p.prefixID ≠ [] ∧ 1 ≤ p.ID.length))
    ∨ ((p.rtype = UNPUBLISH_SCOPE ∨ p.rtype = UNSUBSCRIBE_SCOPE) ∧ p.ID.length ≠ 1)
    ∨ ((p.rtype = UNPUBLISH_INFO ∨ p.rtype = SUBSCRIBE_INFO ∨ p.rtype = UNSUBSCRIBE_INFO)
        ∧ ¬(p.prefixID ≠ [] ∧ p.ID.length = 1))

instance (p : Packet) : Decidable (malformed p) := by
  unfold malformed
  infer_instance

/-! ## Association-list lemmas -/

@[simp] theorem alookup_nil {α β : Type} [DecidableEq α] (k : α) :
    alookup (β := β) k [] = none := rfl

@[simp] theorem alookup_cons {α β : Type} [DecidableEq α] (k a : α) (b : β)
    (t : List (α × β)) :
    alookup k ((a, b) :: t) = if a = k then some b else alookup k t := rfl

theorem alookup_eq_none {α β : Type} [DecidableEq α] (k : α) (l : List (α × β)) :
    alookup k l = none ↔ k ∉ l.map Prod.fst := by
  induction l with
  | nil => simp
  | cons p t ih =>
    obtain ⟨a, b⟩ := p
    by_cases hak : a = k
    · subst hak; simp
    · rw [alookup_cons, if_neg hak, ih]
      simp only [List.map_cons, List.mem_cons]
      constructor
      · intro hn hm
        rcases hm with hm | hm
        · exact hak hm.symm
        · exact hn hm
      · intro hn hm
        exact hn (Or.inr hm)

@[simp] theorem aerase_nil {α β : Type} [DecidableEq α] (k : α) :
    aerase (β := β) k [] = [] := rfl

@[simp] theorem aerase_cons {α β : Type} [DecidableEq α] (k a : α) (b : β)
    (t : List (α × β)) :
    aerase k ((a, b) :: t) = if a = k then aerase k t else (a, b) :: aerase k t := rfl

theorem aerase_of_not_mem {α β : Type} [DecidableEq α] {k : α} {l : List (α × β)}
    (h : k ∉ l.map Prod.fst) : aerase k l = l := by
  induction l with
  | nil => rfl
  | cons p t ih =>
    obtain ⟨a, b⟩ := p
    simp only [List.map_cons, List.mem_cons] at h
    push_neg at h
    simp [Ne.symm h.1, ih h.2]

theorem alookup_aerase {α β : Type} [DecidableEq α] (k k' : α) (l : List (α × β)) :
    alookup k (aerase k' l) = if k' = k then none else alookup k l := by
  induction l with
  | nil => simp
  | cons p t ih =>
    obtain ⟨a, b⟩ := p
    by_cases hak : a = k' <;> by_cases hk : k' = k <;>
      simp_all [aerase, alookup]

@[simp] theorem aupdate_nil {α β : Type} [DecidableEq α] (k : α) (f : β → β) :
    aupdate k f [] = [] := rfl

@[simp] theorem aupdate_cons {α β : Type} [DecidableEq α] (k a : α) (f : β → β)
    (b : β) (t : List (α × β)) :
    aupdate k f ((a, b) :: t) =
      if a = k then (a, f b) :: aupdate k f t else (a, b) :: aupdate k f t := rfl

theorem aupdate_of_not_mem {α β : Type} [DecidableEq α] {k : α} {l : List (α × β)}
    (f : β → β) (h : k ∉ l.map Prod.fst) : aupdate k f l = l := by
  induction l with
  | nil => rfl
  | cons p t ih =>
    obtain ⟨a, b⟩ := p
    simp only [List.map_cons, List.mem_cons] at h
    push_neg at h
    rw [aupdate_cons, if_neg (fun hh => h.1 hh.symm), ih h.2]

theorem aupdate_aupdate {α β : Type} [DecidableEq α] (k : α) (f g : β → β)
    (l : List (α × β)) :
    aupdate k f (aupdate k g l) = aupdate k (fun b => f (g b)) l := by
  induction l with
  | nil => rfl
  | cons p t ih =>
    obtain ⟨a, b⟩ := p
    by_cases hak : a = k <;> simp [hak, ih]

theorem aupdate_id_of {α β : Type} [DecidableEq α] {k : α} {f : β → β}
    {l : List (α × β)} (h : ∀ b, (k, b) ∈ l → f b = b) : aupdate k f l = l := by
  induction l with
  | nil => rfl
  | cons p t ih =>
    obtain ⟨a, b⟩ := p
    by_cases hak : a = k
    · subst hak
      have hb : f b = b := h b (by simp)
      rw [aupdate_cons, if_pos rfl, hb, ih (fun b' hb' => h b' (List.mem_cons_of_mem _ hb'))]
    · rw [aupdate_cons, if_neg hak, ih (fun b' hb' => h b' (List.mem_cons_of_mem _ hb'))]

theorem alookup_aupdate {α β : Type} [DecidableEq α] (k k' : α) (f : β → β)
    (l : List (α × β)) :
    alookup k (aupdate k' f l) =
      if k' = k then (alookup k l).map f else alookup k l := by
  induction l with
  | nil => simp
  | cons p t ih =>
    obtain ⟨a, b⟩ := p
    by_cases hak : a = k'
    · subst hak
      by_cases hk : a = k
      · subst hk; simp [ih]
      · simp [hk, ih]
    · simp only [alookup_cons, aupdate_cons, if_neg hak, ih]
      by_cases hk2 : a = k
      · subst hk2
        rw [if_pos rfl, if_neg (fun hh => hak hh.symm), if_pos rfl]
      · rw [if_neg hk2]
        by_cases hk : k' = k
        · rw [if_pos hk, if_pos hk, if_neg hk2]
        · rw [if_neg hk, if_neg hk, if_neg hk2]

theorem aupdate_keys {α β : Type} [DecidableEq α] (k : α) (f : β → β)
    (l : List (α × β)) : (aupdate k f l).map Prod.fst = l.map Prod.fst := by
  induction l with
  | nil => rfl
  | cons p t ih =>
    obtain ⟨a, b⟩ := p
    by_cases hak : a = k <;> simp [hak, ih]

@[simp] theorem insertL_not_mem {α : Type} [DecidableEq α] {a : α} {l : List α}
    (h : a ∉ l) : insertL a l = a :: l := by
  simp [insertL, h]

@[simp] theorem eraseL_nil {α : Type} [DecidableEq α] (a : α) :
    eraseL a ([] : List α) = [] := rfl

theorem eraseL_of_not_mem {α : Type} [DecidableEq α] {a : α} {l : List α}
    (h : a ∉ l) : eraseL a l = l := by
  rw [eraseL, List.filter_eq_self]
  intro x hx
  simp only [decide_eq_true_eq]
  exact fun hxa => h (hxa ▸ hx)

theorem eraseL_insertL {α : Type} [DecidableEq α] {a : α} {l : List α}
    (h : a ∉ l) : eraseL a (insertL a l) = l := by
  rw [insertL_not_mem h, eraseL, List.filter_cons, if_neg (by simp)]
  exact eraseL_of_not_mem h

/-! ## Failure purity of the operation handlers

Every handler that does not answer `SUCCESS` returns the graph store it was
given and emits nothing. -/

theorem publish_root_scope_fail (s : RV) (h : Label) (ID : FullID) (strategy : Nat)
    (hne : (publish_root_scope s h ID strategy).2.1 ≠ SUCCESS) :
    (publish_root_scope s h ID strategy).1 = s ∧
      (publish_root_scope s h ID strategy).2.2 = [] := by
  unfold publish_root_scope at *
  simp only [] at hne ⊢
  repeat' split at hne
  all_goals simp_all

theorem publish_inner_scope_fail (s : RV) (h : Label) (ID prefixID : FullID)
    (strategy : Nat)
    (hne : (publish_inner_scope s h ID prefixID strategy).2.1 ≠ SUCCESS) :
    (publish_inner_scope s h ID prefixID strategy).1 = s ∧
      (publish_inner_scope s h ID prefixID strategy).2.2 = [] := by
  unfold publish_inner_scope at *
  simp only [] at hne ⊢
  repeat' split at hne
  all_goals simp_all

theorem republish_inner_scope_fail (s : RV) (h : Label) (ID prefixID : FullID)
    (strategy : Nat)
    (hne : (republish_inner_scope s h ID prefixID strategy).2.1 ≠ SUCCESS) :
    (republish_inner_scope s h ID prefixID strategy).1 = s ∧
      (republish_inner_scope s h ID prefixID strategy).2.2 = [] := by
  unfold republish_inner_scope at *
  simp only [] at hne ⊢
  repeat' split at hne
  all_goals simp_all

theorem publish_scope_fail (s : RV) (h : Label) (ID prefixID : FullID)
    (strategy : Nat)
    (hne : (publish_scope s h ID prefixID strategy).2.1 ≠ SUCCESS) :
    (publish_scope s h ID prefixID strategy).1 = s ∧
      (publish_scope s h ID prefixID strategy).2.2 = [] := by
  unfold publish_scope at *
  by_cases h1 : prefixID = [] ∧ ID.length = 1
  · rw [if_pos h1] at hne ⊢
    exact publish_root_scope_fail s h ID strategy hne
  · rw [if_neg h1] at hne ⊢
    by_cases h2 : prefixID ≠ [] ∧ ID.length = 1
    · rw [if_pos h2] at hne ⊢
      exact publish_inner_scope_fail s h ID prefixID strategy hne
    · rw [if_neg h2] at hne ⊢
      by_cases h3 : prefixID ≠ [] ∧ 2 ≤ ID.length
      · rw [if_pos h3] at hne ⊢
        exact republish_inner_scope_fail s h ID prefixID strategy hne
      · rw [if_neg h3] at hne ⊢
        exact ⟨rfl, rfl⟩

theorem advertise_info_fail (s : RV) (h : Label) (ID prefixID : FullID)
    (strategy : Nat)
    (hne : (advertise_info s h ID prefixID strategy).2.1 ≠ SUCCESS) :
    (advertise_info s h ID prefixID strategy).1 = s ∧
      (advertise_info s h ID prefixID strategy).2.2 = [] := by
  unfold advertise_info at *
  simp only [] at hne ⊢
  repeat' split at hne
  all_goals simp_all

theorem readvertise_info_fail (s : RV) (h : Label) (ID prefixID : FullID)
    (strategy : Nat)
    (hne : (readvertise_info s h ID prefixID strategy).2.1 ≠ SUCCESS) :
    (readvertise_info s h ID prefixID strategy).1 = s ∧
      (readvertise_info s h ID prefixID strategy).2.2 = [] := by
  unfold readvertise_info at *
  simp only [] at hne ⊢
  repeat' split at hne
  all_goals simp_all

theorem publish_info_fail (s : RV) (h : Label) (ID prefixID : FullID)
    (strategy : Nat)
    (hne : (publish_info s h ID prefixID strategy).2.1 ≠ SUCCESS) :
    (publish_info s h ID prefixID strategy).1 = s ∧
      (publish_info s h ID prefixID strategy).2.2 = [] := by
  unfold publish_info at *
  by_cases h1 : prefixID ≠ [] ∧ ID.length = 1
  · rw [if_pos h1] at hne ⊢
    exact advertise_info_fail s h ID prefixID strategy hne
  · rw [if_neg h1] at hne ⊢
    by_cases h2 : prefixID ≠ [] ∧ 2 ≤ ID.length
    · rw [if_pos h2] at hne ⊢
      exact readvertise_info_fail s h ID prefixID strategy hne
    · rw [if_neg h2] at hne ⊢
      exact ⟨rfl, rfl⟩

theorem unpublish_info_at_fail (s : RV) (h : Label) (fullID : FullID)
    (strategy : Nat)
    (hne : (unpublish_info_at s h fullID strategy).2.1 ≠ SUCCESS) :
    (unpublish_info_at s h fullID strategy).1 = s ∧
      (unpublish_info_at s h fullID strategy).2.2 = [] := by
  unfold unpublish_info_at at *
  simp only [] at hne ⊢
  repeat' split at hne
  all_goals simp_all

theorem unpublish_info_fail (s : RV) (h : Label) (ID prefixID : FullID)
    (strategy : Nat)
    (hne : (unpublish_info s h ID prefixID strategy).2.1 ≠ SUCCESS) :
    (unpublish_info s h ID prefixID strategy).1 = s ∧
      (unpublish_info s h ID prefixID strategy).2.2 = [] := by
  unfold unpublish_info at *
  by_cases h1 : prefixID ≠ [] ∧ ID.length = 1
  · rw [if_pos h1] at hne ⊢
    exact unpublish_info_at_fail s h (prefixID ++ ID) strategy hne
  · rw [if_neg h1] at hne ⊢
    exact ⟨rfl, rfl⟩

theorem unpublish_scope_at_fail (s : RV) (h : Label) (fullID : FullID)
    (strategy : Nat)
    (hne : (unpublish_scope_at s h fullID strategy).2.1 ≠ SUCCESS) :
    (unpublish_scope_at s h fullID strategy).1 = s ∧
      (unpublish_scope_at s h fullID strategy).2.2 = [] := by
  unfold unpublish_scope_at at *
  simp only [] at hne ⊢
  repeat' split at hne
  all_goals simp_all

theorem unpublish_scope_fail (s : RV) (h : Label) (ID prefixID : FullID)
    (strategy : Nat)
    (hne : (unpublish_scope s h ID prefixID strategy).2.1 ≠ SUCCESS) :
    (unpublish_scope s h ID prefixID strategy).1 = s ∧
      (unpublish_scope s h ID prefixID strategy).2.2 = [] := by
  unfold unpublish_scope at *
  by_cases h1 : ID.length = 1
  · rw [if_pos h1] at hne ⊢
    exact unpublish_scope_at_fail s h (prefixID ++ ID) strategy hne
  · rw [if_neg h1] at hne ⊢
    exact ⟨rfl, rfl⟩

theorem subscribe_root_scope_fail (s : RV) (h : Label) (ID : FullID) (strategy : Nat)
    (hne : (subscribe_root_scope s h ID strategy).2.1 ≠ SUCCESS) :
    (subscribe_root_scope s h ID strategy).1 = s ∧
      (subscribe_root_scope s h ID strategy).2.2 = [] := by
  unfold subscribe_root_scope at *
  simp only [] at hne ⊢
  repeat' split at hne
  all_goals simp_all

theorem subscribe_inner_scope_fail (s : RV) (h : Label) (ID prefixID : FullID)
    (strategy : Nat)
    (hne : (subscribe_inner_scope s h ID prefixID strategy).2.1 ≠ SUCCESS) :
    (subscribe_inner_scope s h ID prefixID strategy).1 = s ∧
      (subscribe_inner_scope s h ID prefixID strategy).2.2 = [] := by
  unfold subscribe_inner_scope at *
  simp only [] at hne ⊢
  repeat' split at hne
  all_goals simp_all

theorem subscribe_scope_fail (s : RV) (h : Label) (ID prefixID : FullID)
    (strategy : Nat)
    (hne : (subscribe_scope s h ID prefixID strategy).2.1 ≠ SUCCESS) :
    (subscribe_scope s h ID prefixID strategy).1 = s ∧
      (subscribe_scope s h ID prefixID strategy).2.2 = [] := by
  unfold subscribe_scope at *
  by_cases h1 : prefixID = [] ∧ ID.length = 1
  · rw [if_pos h1] at hne ⊢
    exact subscribe_root_scope_fail s h ID strategy hne
  · rw [if_neg h1] at hne ⊢
    by_cases h2 : prefixID ≠ [] ∧ ID.length = 1
    · rw [if_pos h2] at hne ⊢
      exact subscribe_inner_scope_fail s h ID prefixID strategy hne
    · rw [if_neg h2] at hne ⊢
      exact ⟨rfl, rfl⟩

theorem subscribe_info_fail (s : RV) (h : Label) (ID prefixID : FullID)
    (strategy : Nat)
    (hne : (subscribe_info s h ID prefixID strategy).2.1 ≠ SUCCESS) :
    (subscribe_info s h ID prefixID strategy).1 = s ∧
      (subscribe_info s h ID prefixID strategy).2.2 = [] := by
  unfold subscribe_info at *
  by_cases h1 : prefixID ≠ [] ∧ ID.length = 1
  · rw [if_pos h1] at hne ⊢
    simp only [] at hne ⊢
    repeat' split at hne
    all_goals simp_all
  · rw [if_neg h1] at hne ⊢
    exact ⟨rfl, rfl⟩

theorem unsubscribe_scope_at_fail (s : RV) (h : Label) (fullID : FullID)
    (strategy : Nat)
    (hne : (unsubscribe_scope_at s h fullID strategy).2.1 ≠ SUCCESS) :
    (unsubscribe_scope_at s h fullID strategy).1 = s ∧
      (unsubscribe_scope_at s h fullID strategy).2.2 = [] := by
  unfold unsubscribe_scope_at at *
  simp only [] at hne ⊢
  repeat' split at hne
  all_goals simp_all

theorem unsubscribe_scope_fail (s : RV) (h : Label) (ID prefixID : FullID)
    (strategy : Nat)
    (hne : (unsubscribe_scope s h ID prefixID strategy).2.1 ≠ SUCCESS) :
    (unsubscribe_scope s h ID prefixID strategy).1 = s ∧
      (unsubscribe_scope s h ID prefixID strategy).2.2 = [] := by
  unfold unsubscribe_scope at *
  by_cases h1 : ID.length = 1
  · rw [if_pos h1] at hne ⊢
    exact unsubscribe_scope_at_fail s h (prefixID ++ ID) strategy hne
  · rw [if_neg h1] at hne ⊢
    exact ⟨rfl, rfl⟩

theorem unsubscribe_info_fail (s : RV) (h : Label) (ID prefixID : FullID)
    (strategy : Nat)
    (hne : (unsubscribe_info s h ID prefixID strategy).2.1 ≠ SUCCESS) :
    (unsubscribe_info s h ID prefixID strategy).1 = s ∧
      (unsubscribe_info s h ID prefixID strategy).2.2 = [] := by
  unfold unsubscribe_info at *
  by_cases h1 : prefixID ≠ [] ∧ ID.length = 1
  · rw [if_pos h1] at hne ⊢
    simp only [] at hne ⊢
    repeat' split at hne
    all_goals simp_all
  · rw [if_neg h1] at hne ⊢
    exact ⟨rfl, rfl⟩

/-! ## Shape errors -/

theorem publish_scope_shape (s : RV) (h : Label) (ID prefixID : FullID)
    (strategy : Nat)
    (hsh : ¬(ID.length = 1 ∨ (prefixID ≠ [] ∧ 2 ≤ ID.length))) :
    publish_scope s h ID prefixID strategy = (s, WRONG_SHAPE, []) := by
  push_neg at hsh
  unfold publish_scope
  rw [if_neg (fun hc => hsh.1 hc.2), if_neg (fun hc => hsh.1 hc.2),
    if_neg (by intro hc; exact Nat.lt_irrefl 2 (Nat.lt_of_le_of_lt hc.2 (hsh.2 hc.1)))]

theorem publish_info_shape (s : RV) (h : Label) (ID prefixID : FullID)
    (strategy : Nat) (hsh : ¬(prefixID ≠ [] ∧ 1 ≤ ID.length)) :
    publish_info s h ID prefixID strategy = (s, WRONG_SHAPE, []) := by
  unfold publish_info
  rw [if_neg (by intro hc; exact hsh ⟨hc.1, by omega⟩),
    if_neg (by intro hc; exact hsh ⟨hc.1, by omega⟩)]

theorem unpublish_scope_shape (s : RV) (h : Label) (ID prefixID : FullID)
    (strategy : Nat) (hsh : ID.length ≠ 1) :
    unpublish_scope s h ID prefixID strategy = (s, WRONG_SHAPE, []) := by
  unfold unpublish_scope
  rw [if_neg hsh]

theorem unsubscribe_scope_shape (s : RV) (h : Label) (ID prefixID : FullID)
    (strategy : Nat) (hsh : ID.length ≠ 1) :
    unsubscribe_scope s h ID prefixID strategy = (s, WRONG_SHAPE, []) := by
  unfold unsubscribe_scope
  rw [if_neg hsh]

theorem subscribe_scope_shape (s : RV) (h : Label) (ID prefixID : FullID)
    (strategy : Nat) (hsh : ID.length ≠ 1) :
    subscribe_scope s h ID prefixID strategy = (s, WRONG_SHAPE, []) := by
  unfold subscribe_scope
  rw [if_neg (fun hc => hsh hc.2), if_neg (fun hc => hsh hc.2)]

theorem unpublish_info_shape (s : RV) (h : Label) (ID prefixID : FullID)
    (strategy : Nat) (hsh : ¬(prefixID ≠ [] ∧ ID.length = 1)) :
    unpublish_info s h ID prefixID strategy = (s, WRONG_SHAPE, []) := by
  unfold unpublish_info
  rw [if_neg hsh]

theorem subscribe_info_shape (s : RV) (h : Label) (ID prefixID : FullID)
    (strategy : Nat) (hsh : ¬(prefixID ≠ [] ∧ ID.length = 1)) :
    subscribe_info s h ID prefixID strategy = (s, WRONG_SHAPE, []) := by
  unfold subscribe_info
  rw [if_neg hsh]

theorem unsubscribe_info_shape (s : RV) (h : Label) (ID prefixID : FullID)
    (strategy : Nat) (hsh : ¬(prefixID ≠ [] ∧ ID.length = 1)) :
    unsubscribe_info s h ID prefixID strategy = (s, WRONG_SHAPE, []) := by
  unfold unsubscribe_info
  rw [if_neg hsh]

/-- A request that does not answer `SUCCESS` changes nothing but the lazy
creation of the issuer's host record, and emits nothing. -/
theorem push_fail (s : RV) (p : Packet)
    (hne : (push s p).2.1 ≠ some SUCCESS) :
    (push s p).1 = (if p.envScope = [ROOT_WILDCARD] then ensureHost s p.envLabel else s) ∧
      (push s p).2.2 = [] := by
  unfold push at *
  by_cases he : p.envScope = [ROOT_WILDCARD]
  · simp only [if_pos he] at hne ⊢
    by_cases hc0 : p.rtype = PUBLISH_SCOPE
    · rw [if_pos hc0] at hne ⊢
      have hne' : (publish_scope (ensureHost s p.envLabel) p.envLabel p.ID p.prefixID p.strategy).2.1 ≠ SUCCESS :=
        fun hw => hne (by simp [hw])
      obtain ⟨ha, hb⟩ := publish_scope_fail _ _ _ _ _ hne'
      exact ⟨ha, hb⟩
    · rw [if_neg hc0] at hne ⊢
      by_cases hc1 : p.rtype = PUBLISH_INFO
      · rw [if_pos hc1] at hne ⊢
        have hne' : (publish_info (ensureHost s p.envLabel) p.envLabel p.ID p.prefixID p.strategy).2.1 ≠ SUCCESS :=
          fun hw => hne (by simp [hw])
        obtain ⟨ha, hb⟩ := publish_info_fail _ _ _ _ _ hne'
        exact ⟨ha, hb⟩
      · rw [if_neg hc1] at hne ⊢
        by_cases hc2 : p.rtype = UNPUBLISH_SCOPE
        · rw [if_pos hc2] at hne ⊢
          have hne' : (unpublish_scope (ensureHost s p.envLabel) p.envLabel p.ID p.prefixID p.strategy).2.1 ≠ SUCCESS :=
            fun hw => hne (by simp [hw])
          obtain ⟨ha, hb⟩ := unpublish_scope_fail _ _ _ _ _ hne'
          exact ⟨ha, hb⟩
        · rw [if_neg hc2] at hne ⊢
          by_cases hc3 : p.rtype = UNPUBLISH_INFO
          · rw [if_pos hc3] at hne ⊢
            have hne' : (unpublish_info (ensureHost s p.envLabel) p.envLabel p.ID p.prefixID p.strategy).2.1 ≠ SUCCESS :=
              fun hw => hne (by simp [hw])
            obtain ⟨ha, hb⟩ := unpublish_info_fail _ _ _ _ _ hne'
            exact ⟨ha, hb⟩
          · rw [if_neg hc3] at hne ⊢
            by_cases hc4 : p.rtype = SUBSCRIBE_SCOPE
            · rw [if_pos hc4] at hne ⊢
              have hne' : (subscribe_scope (ensureHost s p.envLabel) p.envLabel p.ID p.prefixID p.strategy).2.1 ≠ SUCCESS :=
                fun hw => hne (by simp [hw])
              obtain ⟨ha, hb⟩ := subscribe_scope_fail _ _ _ _ _ hne'
              exact ⟨ha, hb⟩
            · rw [if_neg hc4] at hne ⊢
              by_cases hc5 : p.rtype = SUBSCRIBE_INFO
              · rw [if_pos hc5] at hne ⊢
                have hne' : (subscribe_info (ensureHost s p.envLabel) p.envLabel p.ID p.prefixID p.strategy).2.1 ≠ SUCCESS :=
                  fun hw => hne (by simp [hw])
                obtain ⟨ha, hb⟩ := subscribe_info_fail _ _ _ _ _ hne'
                exact ⟨ha, hb⟩
              · rw [if_neg hc5] at hne ⊢
                by_cases hc6 : p.rtype = UNSUBSCRIBE_SCOPE
                · rw [if_pos hc6] at hne ⊢
                  have hne' : (unsubscribe_scope (ensureHost s p.envLabel) p.envLabel p.ID p.prefixID p.strategy).2.1 ≠ SUCCESS :=
                    fun hw => hne (by simp [hw])
                  obtain ⟨ha, hb⟩ := unsubscribe_scope_fail _ _ _ _ _ hne'
                  exact ⟨ha, hb⟩
                · rw [if_neg hc6] at hne ⊢
                  by_cases hc7 : p.rtype = UNSUBSCRIBE_INFO
                  · rw [if_pos hc7] at hne ⊢
                    have hne' : (unsubscribe_info (ensureHost s p.envLabel) p.envLabel p.ID p.prefixID p.strategy).2.1 ≠ SUCCESS :=
                      fun hw => hne (by simp [hw])
                    obtain ⟨ha, hb⟩ := unsubscribe_info_fail _ _ _ _ _ hne'
                    exact ⟨ha, hb⟩
                  · rw [if_neg hc7] at hne ⊢
                    trivial
  · simp only [if_neg he] at hne ⊢
    trivial

/-! ## Garbage-collector lemmas -/

theorem gcScopes_nil (fuel : Nat) (s : RV) : gcScopes fuel s [] = s := by
  cases fuel <;> rfl

theorem gcScopes_zero (s : RV) (ws : List FullID) : gcScopes 0 s ws = s := by
  cases ws <;> rfl

theorem gcScopes_succ_cons (fuel : Nat) (s : RV) (c : FullID) (rest : List FullID) :
    gcScopes (fuel + 1) s (c :: rest) =
      match alookup c s.scopes with
      | none => gcScopes fuel s rest
      | some e =>
        if e.publishers = [] ∧ e.subscribers = [] ∧ childKeys s c = [] then
          gcScopes fuel
            { s with
              scopeIndex := s.scopeIndex.filter (fun p => decide (p.2 ≠ c))
              scopes := aerase c s.scopes }
            (fatherCanons s c ++ rest)
        else gcScopes fuel s rest := rfl

theorem gcScopes_skip (fuel : Nat) (s : RV) (c : FullID) (rest : List FullID)
    (e : Entity) (he : alookup c s.scopes = some e)
    (hne : ¬(e.publishers = [] ∧ e.subscribers = [] ∧ childKeys s c = [])) :
    gcScopes (fuel + 1) s (c :: rest) = gcScopes fuel s rest := by
  rw [gcScopes_succ_cons, he]
  simp only [if_neg hne]

theorem gcScopes_frame (fuel : Nat) :
    ∀ (s : RV) (ws : List FullID),
      (gcScopes fuel s ws).pubIndex = s.pubIndex ∧
        (gcScopes fuel s ws).items = s.items ∧
        (gcScopes fuel s ws).hosts = s.hosts := by
  induction fuel with
  | zero =>
    intro s ws
    rw [gcScopes_zero]
    exact ⟨rfl, rfl, rfl⟩
  | succ n ih =>
    intro s ws
    cases ws with
    | nil =>
      rw [gcScopes_nil]
      exact ⟨rfl, rfl, rfl⟩
    | cons c rest =>
      rw [gcScopes_succ_cons]
      cases halo : alookup c s.scopes with
      | none => exact ih s rest
      | some e =>
        simp only []
        by_cases hcol : e.publishers = [] ∧ e.subscribers = [] ∧ childKeys s c = []
        · rw [if_pos hcol]
          exact ih _ _
        · rw [if_neg hcol]
          exact ih s rest

theorem gcScopes_lookup_none (fuel : Nat) :
    ∀ (s : RV) (ws : List FullID) (c : FullID), alookup c s.scopes = none →
      alookup c (gcScopes fuel s ws).scopes = none := by
  induction fuel with
  | zero =>
    intro s ws c hc
    rwa [gcScopes_zero]
  | succ n ih =>
    intro s ws c hc
    cases ws with
    | nil => rwa [gcScopes_nil]
    | cons c' rest =>
      rw [gcScopes_succ_cons]
      cases halo : alookup c' s.scopes with
      | none => exact ih s rest c hc
      | some e =>
        simp only []
        by_cases hcol : e.publishers = [] ∧ e.subscribers = [] ∧ childKeys s c' = []
        · rw [if_pos hcol]
          refine ih _ _ c ?_
          show alookup c (aerase c' s.scopes) = none
          rw [alookup_aerase]
          by_cases hcc : c' = c
          · simp [hcc]
          · simpa [hcc] using hc
        · rw [if_neg hcol]
          exact ih s rest c hc

theorem gcScopes_not_canon (fuel : Nat) :
    ∀ (s : RV) (ws : List FullID) (c : FullID),
      c ∉ s.scopeIndex.map Prod.snd →
      c ∉ (gcScopes fuel s ws).scopeIndex.map Prod.snd := by
  induction fuel with
  | zero =>
    intro s ws c hc
    rwa [gcScopes_zero]
  | succ n ih =>
    intro s ws c hc
    cases ws with
    | nil => rwa [gcScopes_nil]
    | cons c' rest =>
      rw [gcScopes_succ_cons]
      cases halo : alookup c' s.scopes with
      | none => exact ih s rest c hc
      | some e =>
        simp only []
        by_cases hcol : e.publishers = [] ∧ e.subscribers = [] ∧ childKeys s c' = []
        · rw [if_pos hcol]
          refine ih _ _ c ?_
          intro hmem
          refine hc ?_
          simp only [List.mem_map] at hmem ⊢
          obtain ⟨q, hq, hq2⟩ := hmem
          exact ⟨q, List.mem_of_mem_filter hq, hq2⟩
        · rw [if_neg hcol]
          exact ih s rest c hc

/-! ## Subscriber-closure lemmas -/

theorem scopeSubsClosure_mem (fuel : Nat) :
    ∀ (s : RV) (c : FullID) (l : Label),
      l ∈ scopeSubsClosure fuel s c ↔
        ∃ a, a ∈ scopeAncestors fuel s c ∧ l ∈ subsOfScope s a := by
  induction fuel with
  | zero =>
    intro s c l
    constructor
    · intro hl
      cases hl
    · rintro ⟨a, ha, _⟩
      cases ha
  | succ n ih =>
    intro s c l
    rw [show scopeSubsClosure (n + 1) s c =
          (match alookup c s.scopes with
          | none => []
          | some e => e.subscribers ++ (fatherCanons s c).flatMap (scopeSubsClosure n s)) from rfl,
      show scopeAncestors (n + 1) s c =
          (match alookup c s.scopes with
          | none => []
          | some _ => c :: (fatherCanons s c).flatMap (scopeAncestors n s)) from rfl]
    cases halo : alookup c s.scopes with
    | none => simp
    | some e =>
      simp only [List.mem_append, List.mem_flatMap, List.mem_cons]
      constructor
      · rintro (hl | ⟨f, hf, hlf⟩)
        · refine ⟨c, Or.inl rfl, ?_⟩
          simpa [subsOfScope, halo] using hl
        · obtain ⟨a, ha, hla⟩ := (ih s f l).1 hlf
          exact ⟨a, Or.inr ⟨f, hf, ha⟩, hla⟩
      · rintro ⟨a, (rfl | ⟨f, hf, haf⟩), hla⟩
        · left
          simpa [subsOfScope, halo] using hla
        · right
          exact ⟨f, hf, (ih s f l).2 ⟨a, haf, hla⟩⟩

/-! ## Evaluation of `push` -/

theorem ensureHost_frame (s : RV) (h : Label) :
    (ensureHost s h).scopeIndex = s.scopeIndex ∧ (ensureHost s h).pubIndex = s.pubIndex ∧
      (ensureHost s h).scopes = s.scopes ∧ (ensureHost s h).items = s.items := by
  unfold ensureHost
  split <;> exact ⟨rfl, rfl, rfl, rfl⟩

theorem push_rtype_publish_scope (s : RV) (p : Packet)
    (he : p.envScope = [ROOT_WILDCARD]) (hr : p.rtype = PUBLISH_SCOPE) :
    push s p =
      (((publish_scope (ensureHost s p.envLabel) p.envLabel p.ID p.prefixID p.strategy).1),
        some (publish_scope (ensureHost s p.envLabel) p.envLabel p.ID p.prefixID p.strategy).2.1,
        (publish_scope (ensureHost s p.envLabel) p.envLabel p.ID p.prefixID p.strategy).2.2) := by
  unfold push
  rw [if_pos he]
  simp only [hr]
  norm_num [PUBLISH_SCOPE, PUBLISH_INFO, UNPUBLISH_SCOPE, UNPUBLISH_INFO, SUBSCRIBE_SCOPE, SUBSCRIBE_INFO, UNSUBSCRIBE_SCOPE, UNSUBSCRIBE_INFO]

theorem push_rtype_publish_info (s : RV) (p : Packet)
    (he : p.envScope = [ROOT_WILDCARD]) (hr : p.rtype = PUBLISH_INFO) :
    push s p =
      (((publish_info (ensureHost s p.envLabel) p.envLabel p.ID p.prefixID p.strategy).1),
        some (publish_info (ensureHost s p.envLabel) p.envLabel p.ID p.prefixID p.strategy).2.1,
        (publish_info (ensureHost s p.envLabel) p.envLabel p.ID p.prefixID p.strategy).2.2) := by
  unfold push
  rw [if_pos he]
  simp only [hr]
  norm_num [PUBLISH_SCOPE, PUBLISH_INFO, UNPUBLISH_SCOPE, UNPUBLISH_INFO, SUBSCRIBE_SCOPE, SUBSCRIBE_INFO, UNSUBSCRIBE_SCOPE, UNSUBSCRIBE_INFO]

theorem push_rtype_unpublish_scope (s : RV) (p : Packet)
    (he : p.envScope = [ROOT_WILDCARD]) (hr : p.rtype = UNPUBLISH_SCOPE) :
    push s p =
      (((unpublish_scope (ensureHost s p.envLabel) p.envLabel p.ID p.prefixID p.strategy).1),
        some (unpublish_scope (ensureHost s p.envLabel) p.envLabel p.ID p.prefixID p.strategy).2.1,
        (unpublish_scope (ensureHost s p.envLabel) p.envLabel p.ID p.prefixID p.strategy).2.2) := by
  unfold push
  rw [if_pos he]
  simp only [hr]
  norm_num [PUBLISH_SCOPE, PUBLISH_INFO, UNPUBLISH_SCOPE, UNPUBLISH_INFO, SUBSCRIBE_SCOPE, SUBSCRIBE_INFO, UNSUBSCRIBE_SCOPE, UNSUBSCRIBE_INFO]

theorem push_rtype_unpublish_info (s : RV) (p : Packet)
    (he : p.envScope = [ROOT_WILDCARD]) (hr : p.rtype = UNPUBLISH_INFO) :
    push s p =
      (((unpublish_info (ensureHost s p.envLabel) p.envLabel p.ID p.prefixID p.strategy).1),
        some (unpublish_info (ensureHost s p.envLabel) p.envLabel p.ID p.prefixID p.strategy).2.1,
        (unpublish_info (ensureHost s p.envLabel) p.envLabel p.ID p.prefixID p.strategy).2.2) := by
  unfold push
  rw [if_pos he]
  simp only [hr]
  norm_num [PUBLISH_SCOPE, PUBLISH_INFO, UNPUBLISH_SCOPE, UNPUBLISH_INFO, SUBSCRIBE_SCOPE, SUBSCRIBE_INFO, UNSUBSCRIBE_SCOPE, UNSUBSCRIBE_INFO]

theorem push_rtype_subscribe_scope (s : RV) (p : Packet)
    (he : p.envScope = [ROOT_WILDCARD]) (hr : p.rtype = SUBSCRIBE_SCOPE) :
    push s p =
      (((subscribe_scope (ensureHost s p.envLabel) p.envLabel p.ID p.prefixID p.strategy).1),
        some (subscribe_scope (ensureHost s p.envLabel) p.envLabel p.ID p.prefixID p.strategy).2.1,
        (subscribe_scope (ensureHost s p.envLabel) p.envLabel p.ID p.prefixID p.strategy).2.2) := by
  unfold push
  rw [if_pos he]
  simp only [hr]
  norm_num [PUBLISH_SCOPE, PUBLISH_INFO, UNPUBLISH_SCOPE, UNPUBLISH_INFO, SUBSCRIBE_SCOPE, SUBSCRIBE_INFO, UNSUBSCRIBE_SCOPE, UNSUBSCRIBE_INFO]

theorem push_rtype_subscribe_info (s : RV) (p : Packet)
    (he : p.envScope = [ROOT_WILDCARD]) (hr : p.rtype = SUBSCRIBE_INFO) :
    push s p =
      (((subscribe_info (ensureHost s p.envLabel) p.envLabel p.ID p.prefixID p.strategy).1),
        some (subscribe_info (ensureHost s p.envLabel) p.envLabel p.ID p.prefixID p.strategy).2.1,
        (subscribe_info (ensureHost s p.envLabel) p.envLabel p.ID p.prefixID p.strategy).2.2) := by
  unfold push
  rw [if_pos he]
  simp only [hr]
  norm_num [PUBLISH_SCOPE, PUBLISH_INFO, UNPUBLISH_SCOPE, UNPUBLISH_INFO, SUBSCRIBE_SCOPE, SUBSCRIBE_INFO, UNSUBSCRIBE_SCOPE, UNSUBSCRIBE_INFO]

theorem push_rtype_unsubscribe_scope (s : RV) (p : Packet)
    (he : p.envScope = [ROOT_WILDCARD]) (hr : p.rtype = UNSUBSCRIBE_SCOPE) :
    push s p =
      (((unsubscribe_scope (ensureHost s p.envLabel) p.envLabel p.ID p.prefixID p.strategy).1),
        some (unsubscribe_scope (ensureHost s p.envLabel) p.envLabel p.ID p.prefixID p.strategy).2.1,
        (unsubscribe_scope (ensureHost s p.envLabel) p.envLabel p.ID p.prefixID p.strategy).2.2) := by
  unfold push
  rw [if_pos he]
  simp only [hr]
  norm_num [PUBLISH_SCOPE, PUBLISH_INFO, UNPUBLISH_SCOPE, UNPUBLISH_INFO, SUBSCRIBE_SCOPE, SUBSCRIBE_INFO, UNSUBSCRIBE_SCOPE, UNSUBSCRIBE_INFO]

theorem push_rtype_unsubscribe_info (s : RV) (p : Packet)
    (he : p.envScope = [ROOT_WILDCARD]) (hr : p.rtype = UNSUBSCRIBE_INFO) :
    push s p =
      (((unsubscribe_info (ensureHost s p.envLabel) p.envLabel p.ID p.prefixID p.strategy).1),
        some (unsubscribe_info (ensureHost s p.envLabel) p.envLabel p.ID p.prefixID p.strategy).2.1,
        (unsubscribe_info (ensureHost s p.envLabel) p.envLabel p.ID p.prefixID p.strategy).2.2) := by
  unfold push
  rw [if_pos he]
  simp only [hr]
  norm_num [PUBLISH_SCOPE, PUBLISH_INFO, UNPUBLISH_SCOPE, UNPUBLISH_INFO, SUBSCRIBE_SCOPE, SUBSCRIBE_INFO, UNSUBSCRIBE_SCOPE, UNSUBSCRIBE_INFO]

theorem push_rtype_unknown (s : RV) (p : Packet)
    (he : p.envScope = [ROOT_WILDCARD])
    (hr : p.rtype ∉ [PUBLISH_SCOPE, PUBLISH_INFO, UNPUBLISH_SCOPE, UNPUBLISH_INFO,
      SUBSCRIBE_SCOPE, SUBSCRIBE_INFO, UNSUBSCRIBE_SCOPE, UNSUBSCRIBE_INFO]) :
    push s p = (ensureHost s p.envLabel, none, []) := by
  simp only [List.mem_cons, List.mem_singleton] at hr
  push_neg at hr
  obtain ⟨h1, h2, h3, h4, h5, h6, h7, h8, -⟩ := hr
  unfold push
  rw [if_pos he, if_neg h1, if_neg h2, if_neg h3, if_neg h4, if_neg h5, if_neg h6,
    if_neg h7, if_neg h8]

theorem push_env_bad (s : RV) (p : Packet) (he : p.envScope ≠ [ROOT_WILDCARD]) :
    push s p = (s, none, []) := by
  unfold push
  rw [if_neg he]

/-! ## Reading the two-level lookups -/

theorem getScope_eq_some {s : RV} {f c : FullID} {e : Entity}
    (hg : getScope s f = some (c, e)) :
    alookup f s.scopeIndex = some c ∧ alookup c s.scopes = some e := by
  unfold getScope at hg
  cases h1 : alookup f s.scopeIndex with
  | none => rw [h1] at hg; cases hg
  | some c' =>
    rw [h1] at hg
    simp only [] at hg
    cases h2 : alookup c' s.scopes with
    | none => rw [h2] at hg; cases hg
    | some e' =>
      rw [h2] at hg
      simp only [] at hg
      cases hg
      exact ⟨rfl, h2⟩

theorem getItem_eq_some {s : RV} {f c : FullID} {e : Entity}
    (hg : getItem s f = some (c, e)) :
    alookup f s.pubIndex = some c ∧ alookup c s.items = some e := by
  unfold getItem at hg
  cases h1 : alookup f s.pubIndex with
  | none => rw [h1] at hg; cases hg
  | some c' =>
    rw [h1] at hg
    simp only [] at hg
    cases h2 : alookup c' s.items with
    | none => rw [h2] at hg; cases hg
    | some e' =>
      rw [h2] at hg
      simp only [] at hg
      cases hg
      exact ⟨rfl, h2⟩

/-! ## Erasure lemmas for the indexes -/

theorem filter_snd_not_mem {α β : Type} [DecidableEq β] (l : List (α × β)) (c : β) :
    c ∉ (l.filter (fun p => decide (p.2 ≠ c))).map Prod.snd := by
  intro hmem
  simp only [List.mem_map] at hmem
  obtain ⟨q, hq, hq2⟩ := hmem
  have := List.of_mem_filter hq
  simp only [decide_eq_true_eq] at this
  exact this hq2

theorem aerase_not_key {α β : Type} [DecidableEq α] (l : List (α × β)) (k : α) :
    k ∉ (aerase k l).map Prod.fst := by
  induction l with
  | nil => simp
  | cons p t ih =>
    obtain ⟨a, b⟩ := p
    by_cases hak : a = k
    · simpa [hak] using ih
    · simp only [aerase_cons, if_neg hak, List.map_cons, List.mem_cons]
      rintro (h | h)
      · exact hak h.symm
      · exact ih h

theorem gcScopes_not_key (fuel : Nat) :
    ∀ (s : RV) (ws : List FullID) (f : FullID),
      f ∉ s.scopeIndex.map Prod.fst →
      f ∉ (gcScopes fuel s ws).scopeIndex.map Prod.fst := by
  induction fuel with
  | zero =>
    intro s ws f hf
    rwa [gcScopes_zero]
  | succ n ih =>
    intro s ws f hf
    cases ws with
    | nil => rwa [gcScopes_nil]
    | cons c' rest =>
      rw [gcScopes_succ_cons]
      cases halo : alookup c' s.scopes with
      | none => exact ih s rest f hf
      | some e =>
        simp only []
        by_cases hcol : e.publishers = [] ∧ e.subscribers = [] ∧ childKeys s c' = []
        · rw [if_pos hcol]
          refine ih _ _ f ?_
          intro hmem
          refine hf ?_
          simp only [List.mem_map] at hmem ⊢
          obtain ⟨q, hq, hq2⟩ := hmem
          exact ⟨q, List.mem_of_mem_filter hq, hq2⟩
        · rw [if_neg hcol]
          exact ih s rest f hf

theorem eraseL_cons {α : Type} [DecidableEq α] (a x : α) (l : List α) :
    eraseL a (x :: l) = if x = a then eraseL a l else x :: eraseL a l := by
  unfold eraseL
  rw [List.filter_cons]
  by_cases hxa : x = a <;> simp [hxa]

theorem idsToCanon_cons (a b c : FullID) (t : List (FullID × FullID)) :
    idsToCanon ((a, b) :: t) c =
      if b = c then a :: idsToCanon t c else idsToCanon t c := by
  unfold idsToCanon
  rw [List.filter_cons]
  by_cases hbc : b = c <;> simp [hbc]

theorem idsToCanon_aerase (f c : FullID) :
    ∀ idx : List (FullID × FullID),
      idsToCanon (aerase f idx) c = eraseL f (idsToCanon idx c) := by
  intro idx
  induction idx with
  | nil => rfl
  | cons p t ih =>
    obtain ⟨a, b⟩ := p
    rw [aerase_cons, idsToCanon_cons]
    by_cases haf : a = f
    · rw [if_pos haf, ih]
      by_cases hbc : b = c
      · rw [if_pos hbc, eraseL_cons, if_pos haf]
      · rw [if_neg hbc]
    · rw [if_neg haf, idsToCanon_cons]
      by_cases hbc : b = c
      · rw [if_pos hbc, if_pos hbc, eraseL_cons, if_neg haf, ih]
      · rw [if_neg hbc, if_neg hbc, ih]

theorem not_mem_eraseL {α : Type} [DecidableEq α] (a : α) (l : List α) :
    a ∉ eraseL a l := by
  intro hmem
  have := List.of_mem_filter hmem
  simp at this

/-! ## Round-trip evaluation lemmas -/

theorem idsToCanon_eq_nil {idx : List (FullID × FullID)} {c : FullID}
    (h : c ∉ idx.map Prod.snd) : idsToCanon idx c = [] := by
  induction idx with
  | nil => rfl
  | cons p t ih =>
    obtain ⟨a, b⟩ := p
    simp only [List.map_cons, List.mem_cons] at h
    push_neg at h
    rw [idsToCanon_cons, if_neg (fun hh => h.1 hh.symm)]
    exact ih h.2

theorem childKeysIn_eq_nil {keys : List FullID} {sidx : List (FullID × FullID)}
    {c : FullID} (h : ∀ k ∈ keys, k.dropLast ∉ idsToCanon sidx c) :
    childKeysIn keys sidx c = [] := by
  unfold childKeysIn
  rw [List.filter_eq_nil_iff]
  intro k hk
  simp only [decide_eq_true_eq]
  rintro ⟨-, hmem⟩
  exact h k hk hmem

theorem ensureHost_known {s : RV} {h : Label} {r : HostRec}
    (hk : alookup h s.hosts = some r) : ensureHost s h = s := by
  unfold ensureHost
  rw [hk]
  rfl

theorem publish_root_scope_eval (s : RV) (h : Label) (x : Frag) (σ : Nat)
    (hfree : alookup [x] s.scopeIndex = none)
    (harena : alookup [x] s.scopes = none) :
    publish_root_scope s h [x] σ =
      (⟨([x], [x]) :: s.scopeIndex, s.pubIndex,
        ([x], ⟨σ, [h], []⟩) :: s.scopes, s.items,
        aupdate h (fun r => { r with publishedScopes := insertL [x] r.publishedScopes })
          s.hosts⟩, SUCCESS, []) := by
  unfold publish_root_scope
  rw [show getScope s [x] = none from by unfold getScope; rw [hfree]]
  simp only []
  unfold linkScopePublisher
  rw [aupdate_cons, if_pos rfl,
    aupdate_of_not_mem _ ((alookup_eq_none _ _).mp harena)]
  rfl

theorem unpublish_root_scope_eval (s : RV) (h : Label) (x : Frag) (σ : Nat)
    (hfree : alookup [x] s.scopeIndex = none)
    (hcanon : [x] ∉ s.scopeIndex.map Prod.snd)
    (harena : alookup [x] s.scopes = none)
    (hchild : ∀ k ∈ s.scopeIndex.map Prod.fst ++ s.pubIndex.map Prod.fst,
      k.dropLast ≠ [x])
    (hhost : ∀ r, (h, r) ∈ s.hosts → [x] ∉ r.publishedScopes) :
    unpublish_scope_at
      ⟨([x], [x]) :: s.scopeIndex, s.pubIndex, ([x], ⟨σ, [h], []⟩) :: s.scopes, s.items,
        aupdate h (fun r => { r with publishedScopes := insertL [x] r.publishedScopes })
          s.hosts⟩
      h [x] σ = (s, SUCCESS, []) := by
  have hids : idsToCanon (([x], [x]) :: s.scopeIndex) [x] = [[x]] := by
    rw [idsToCanon_cons, if_pos rfl, idsToCanon_eq_nil hcanon]
  have hg : getScope
      (⟨([x], [x]) :: s.scopeIndex, s.pubIndex, ([x], ⟨σ, [h], []⟩) :: s.scopes, s.items,
        aupdate h (fun r => { r with publishedScopes := insertL [x] r.publishedScopes })
          s.hosts⟩ : RV) [x] = some ([x], ⟨σ, [h], []⟩) := by
    unfold getScope
    rw [alookup_cons, if_pos rfl]
    simp only []
    rw [alookup_cons, if_pos rfl]
  have hkids : childItemKeys
      (⟨([x], [x]) :: s.scopeIndex, s.pubIndex, ([x], ⟨σ, [h], []⟩) :: s.scopes, s.items,
        aupdate h (fun r => { r with publishedScopes := insertL [x] r.publishedScopes })
          s.hosts⟩ : RV) [x] = [] := by
    unfold childItemKeys
    refine childKeysIn_eq_nil ?_
    intro k hk
    rw [hids, List.mem_singleton]
    exact hchild k (List.mem_append_right _ hk)
  have hunlink : unlinkScopePublisher
      (⟨([x], [x]) :: s.scopeIndex, s.pubIndex, ([x], ⟨σ, [h], []⟩) :: s.scopes, s.items,
        aupdate h (fun r => { r with publishedScopes := insertL [x] r.publishedScopes })
          s.hosts⟩ : RV) [x] [x] h =
      ⟨([x], [x]) :: s.scopeIndex, s.pubIndex, ([x], ⟨σ, [], []⟩) :: s.scopes, s.items,
        s.hosts⟩ := by
    unfold unlinkScopePublisher
    congr 1
    · rw [aupdate_cons, if_pos rfl, aupdate_of_not_mem _ ((alookup_eq_none _ _).mp harena),
        eraseL_cons, if_pos rfl]
      rfl
    · rw [aupdate_aupdate]
      exact aupdate_id_of (fun r hr => by
        show HostRec.mk (eraseL [x] (insertL [x] r.publishedScopes))
          r.subscribedScopes r.publishedItems r.subscribedItems = r
        rw [eraseL_insertL (hhost r hr)])
  have hchild2 : childKeys
      (⟨([x], [x]) :: s.scopeIndex, s.pubIndex, ([x], ⟨σ, [], []⟩) :: s.scopes, s.items,
        s.hosts⟩ : RV) [x] = [] := by
    unfold childKeys
    refine childKeysIn_eq_nil ?_
    intro k hk
    rw [hids, List.mem_singleton]
    simp only [List.map_cons, List.cons_append, List.mem_cons] at hk
    rcases hk with rfl | hk
    · intro hdrop
      have : ([x] : FullID).dropLast = [] := rfl
      rw [this] at hdrop
      cases hdrop
    · exact hchild k hk
  unfold unpublish_scope_at
  rw [hg]
  simp only []
  rw [if_true, hkids]
  simp only [List.foldl_nil]
  rw [hunlink]
  rw [show alookup [x] (([x], ⟨σ, [], []⟩) :: s.scopes) = some ⟨σ, [], []⟩ from by
    rw [alookup_cons, if_pos rfl]]
  simp only []
  rw [if_pos (⟨trivial, trivial, hchild2⟩ :
    True ∧ True ∧
      childKeys (⟨([x], [x]) :: s.scopeIndex, s.pubIndex, ([x], ⟨σ, [], []⟩) :: s.scopes,
        s.items, s.hosts⟩ : RV) [x] = [])]
  rw [if_neg (show ¬ 2 ≤ ([x] : FullID).length from by simp)]
  rw [show aerase [x] (([x], [x]) :: s.scopeIndex) = s.scopeIndex from by
    rw [aerase_cons, if_pos rfl, aerase_of_not_mem ((alookup_eq_none _ _).mp hfree)]]
  rw [show scopeIds (⟨s.scopeIndex, s.pubIndex, ([x], ⟨σ, [], []⟩) :: s.scopes,
      s.items, s.hosts⟩ : RV) [x] = [] from by
    show idsToCanon s.scopeIndex [x] = []
    exact idsToCanon_eq_nil hcanon]
  rw [if_pos (rfl : ([] : List FullID) = [])]
  rw [show aerase [x] (([x], ⟨σ, [], []⟩) :: s.scopes) = s.scopes from by
    rw [aerase_cons, if_pos rfl, aerase_of_not_mem ((alookup_eq_none _ _).mp harena)]]

theorem publish_inner_scope_eval (s : RV) (h : Label) (x : Frag) (pfx : FullID)
    (σ : Nat) (fc : FullID) (fe : Entity)
    (hpubfree : alookup (pfx ++ [x]) s.pubIndex = none)
    (hfat : getScope s pfx = some (fc, fe))
    (hfreeS : alookup (pfx ++ [x]) s.scopeIndex = none)
    (harena : alookup (pfx ++ [x]) s.scopes = none)
    (hstrat : fe.strategy = σ) :
    publish_inner_scope s h [x] pfx σ =
      (⟨(pfx ++ [x], pfx ++ [x]) :: s.scopeIndex, s.pubIndex,
        (pfx ++ [x], ⟨σ, [h], []⟩) :: s.scopes, s.items,
        aupdate h (fun r => { r with publishedScopes := insertL (pfx ++ [x]) r.publishedScopes })
          s.hosts⟩,
       SUCCESS, [Event.notify SCOPE_PUBLISHED fe.subscribers [pfx ++ [x]]]) := by
  have hg : getScope s (pfx ++ [x]) = none := by
    unfold getScope
    rw [hfreeS]
  unfold publish_inner_scope
  simp only [hpubfree, Option.isSome_none, Bool.false_eq_true, if_false, hfat, hg]
  rw [if_pos hstrat]
  unfold linkScopePublisher
  rw [aupdate_cons, if_pos rfl,
    aupdate_of_not_mem _ ((alookup_eq_none _ _).mp harena)]
  rfl

theorem unpublish_inner_scope_eval (s : RV) (h : Label) (x : Frag) (pfx : FullID)
    (σ : Nat) (fc : FullID) (fe : Entity)
    (hpfx : pfx ≠ [])
    (hfat : getScope s pfx = some (fc, fe))
    (hfree : alookup (pfx ++ [x]) s.scopeIndex = none)
    (hcanon : (pfx ++ [x]) ∉ s.scopeIndex.map Prod.snd)
    (harena : alookup (pfx ++ [x]) s.scopes = none)
    (hchild : ∀ k ∈ s.scopeIndex.map Prod.fst ++ s.pubIndex.map Prod.fst,
      k.dropLast ≠ pfx ++ [x])
    (hhost : ∀ r, (h, r) ∈ s.hosts → (pfx ++ [x]) ∉ r.publishedScopes)
    (hfene : ¬(fe.publishers = [] ∧ fe.subscribers = [] ∧ childKeys s fc = [])) :
    unpublish_scope_at
      ⟨(pfx ++ [x], pfx ++ [x]) :: s.scopeIndex, s.pubIndex,
        (pfx ++ [x], ⟨σ, [h], []⟩) :: s.scopes, s.items,
        aupdate h (fun r => { r with publishedScopes := insertL (pfx ++ [x]) r.publishedScopes })
          s.hosts⟩
      h (pfx ++ [x]) σ = (s, SUCCESS, []) := by
  obtain ⟨hfat1, hfat2⟩ := getScope_eq_some hfat
  have hne : pfx ≠ pfx ++ [x] := by
    intro he
    have := congrArg List.length he
    simp at this
  have hids : idsToCanon ((pfx ++ [x], pfx ++ [x]) :: s.scopeIndex) (pfx ++ [x]) =
      [pfx ++ [x]] := by
    rw [idsToCanon_cons, if_pos rfl, idsToCanon_eq_nil hcanon]
  have hg : getScope
      (⟨(pfx ++ [x], pfx ++ [x]) :: s.scopeIndex, s.pubIndex,
        (pfx ++ [x], ⟨σ, [h], []⟩) :: s.scopes, s.items,
        aupdate h (fun r => { r with publishedScopes := insertL (pfx ++ [x]) r.publishedScopes })
          s.hosts⟩ : RV) (pfx ++ [x]) = some (pfx ++ [x], ⟨σ, [h], []⟩) := by
    unfold getScope
    rw [alookup_cons, if_pos rfl]
    simp only []
    rw [alookup_cons, if_pos rfl]
  have hkids : childItemKeys
      (⟨(pfx ++ [x], pfx ++ [x]) :: s.scopeIndex, s.pubIndex,
        (pfx ++ [x], ⟨σ, [h], []⟩) :: s.scopes, s.items,
        aupdate h (fun r => { r with publishedScopes := insertL (pfx ++ [x]) r.publishedScopes })
          s.hosts⟩ : RV) (pfx ++ [x]) = [] := by
    unfold childItemKeys
    refine childKeysIn_eq_nil ?_
    intro k hk
    rw [hids, List.mem_singleton]
    exact hchild k (List.mem_append_right _ hk)
  have hunlink : unlinkScopePublisher
      (⟨(pfx ++ [x], pfx ++ [x]) :: s.scopeIndex, s.pubIndex,
        (pfx ++ [x], ⟨σ, [h], []⟩) :: s.scopes, s.items,
        aupdate h (fun r => { r with publishedScopes := insertL (pfx ++ [x]) r.publishedScopes })
          s.hosts⟩ : RV) (pfx ++ [x]) (pfx ++ [x]) h =
      ⟨(pfx ++ [x], pfx ++ [x]) :: s.scopeIndex, s.pubIndex,
        (pfx ++ [x], ⟨σ, [], []⟩) :: s.scopes, s.items, s.hosts⟩ := by
    unfold unlinkScopePublisher
    congr 1
    · rw [aupdate_cons, if_pos rfl, aupdate_of_not_mem _ ((alookup_eq_none _ _).mp harena),
        eraseL_cons, if_pos rfl]
      rfl
    · rw [aupdate_aupdate]
      exact aupdate_id_of (fun r hr => by
        show HostRec.mk (eraseL (pfx ++ [x]) (insertL (pfx ++ [x]) r.publishedScopes))
          r.subscribedScopes r.publishedItems r.subscribedItems = r
        rw [eraseL_insertL (hhost r hr)])
  have hchild2 : childKeys
      (⟨(pfx ++ [x], pfx ++ [x]) :: s.scopeIndex, s.pubIndex,
        (pfx ++ [x], ⟨σ, [], []⟩) :: s.scopes, s.items, s.hosts⟩ : RV) (pfx ++ [x]) = [] := by
    unfold childKeys
    refine childKeysIn_eq_nil ?_
    intro k hk
    rw [hids, List.mem_singleton]
    simp only [List.map_cons, List.cons_append, List.mem_cons] at hk
    rcases hk with rfl | hk
    · rw [List.dropLast_concat]
      exact hne
    · exact hchild k hk
  unfold unpublish_scope_at
  rw [hg]
  simp only []
  rw [if_true, hkids]
  simp only [List.foldl_nil]
  rw [hunlink]
  rw [show alookup (pfx ++ [x]) ((pfx ++ [x], ⟨σ, [], []⟩) :: s.scopes) =
      some ⟨σ, [], []⟩ from by rw [alookup_cons, if_pos rfl]]
  simp only []
  rw [if_pos (⟨trivial, trivial, hchild2⟩ :
    True ∧ True ∧
      childKeys (⟨(pfx ++ [x], pfx ++ [x]) :: s.scopeIndex, s.pubIndex,
        (pfx ++ [x], ⟨σ, [], []⟩) :: s.scopes, s.items, s.hosts⟩ : RV) (pfx ++ [x]) = [])]
  rw [if_pos (show 2 ≤ (pfx ++ [x]).length from by
    rw [List.length_append]
    simp
    exact List.length_pos.mpr hpfx)]
  rw [show aerase (pfx ++ [x]) ((pfx ++ [x], pfx ++ [x]) :: s.scopeIndex) = s.scopeIndex from by
    rw [aerase_cons, if_pos rfl, aerase_of_not_mem ((alookup_eq_none _ _).mp hfree)]]
  rw [show scopeIds (⟨s.scopeIndex, s.pubIndex, (pfx ++ [x], ⟨σ, [], []⟩) :: s.scopes,
      s.items, s.hosts⟩ : RV) (pfx ++ [x]) = [] from by
    show idsToCanon s.scopeIndex (pfx ++ [x]) = []
    exact idsToCanon_eq_nil hcanon]
  rw [if_pos (rfl : ([] : List FullID) = [])]
  rw [show aerase (pfx ++ [x]) ((pfx ++ [x], ⟨σ, [], []⟩) :: s.scopes) = s.scopes from by
    rw [aerase_cons, if_pos rfl, aerase_of_not_mem ((alookup_eq_none _ _).mp harena)]]
  rw [List.dropLast_concat, hfat1]
  simp only []
  rw [show fuelOf (⟨s.scopeIndex, s.pubIndex, s.scopes, s.items, s.hosts⟩ : RV) =
    (⟨s.scopeIndex, s.pubIndex, s.scopes, s.items, s.hosts⟩ : RV).scopes.length + 1 from rfl]
  rw [gcScopes_skip _ _ fc [] fe hfat2 (fun hcol => hfene hcol), gcScopes_nil]

theorem advertise_info_eval (s : RV) (h : Label) (x : Frag) (pfx : FullID)
    (σ : Nat) (fc : FullID) (fe : Entity)
    (hscfree : alookup (pfx ++ [x]) s.scopeIndex = none)
    (hfat : getScope s pfx = some (fc, fe))
    (hpubfree : alookup (pfx ++ [x]) s.pubIndex = none)
    (harena : alookup (pfx ++ [x]) s.items = none)
    (hstrat : fe.strategy = σ) :
    (advertise_info s h [x] pfx σ).1 =
      ⟨s.scopeIndex, (pfx ++ [x], pfx ++ [x]) :: s.pubIndex, s.scopes,
        (pfx ++ [x], ⟨σ, [h], []⟩) :: s.items,
        aupdate h (fun r => { r with publishedItems := insertL (pfx ++ [x]) r.publishedItems })
          s.hosts⟩ ∧
      (advertise_info s h [x] pfx σ).2.1 = SUCCESS := by
  have hg : getItem s (pfx ++ [x]) = none := by
    unfold getItem
    rw [hpubfree]
  have hlink : linkItemPublisher
      (⟨s.scopeIndex, (pfx ++ [x], pfx ++ [x]) :: s.pubIndex, s.scopes,
        (pfx ++ [x], ⟨σ, [], []⟩) :: s.items, s.hosts⟩ : RV) (pfx ++ [x]) (pfx ++ [x]) h =
      ⟨s.scopeIndex, (pfx ++ [x], pfx ++ [x]) :: s.pubIndex, s.scopes,
        (pfx ++ [x], ⟨σ, [h], []⟩) :: s.items,
        aupdate h (fun r => { r with publishedItems := insertL (pfx ++ [x]) r.publishedItems })
          s.hosts⟩ := by
    unfold linkItemPublisher
    congr 1
    rw [aupdate_cons, if_pos rfl, aupdate_of_not_mem _ ((alookup_eq_none _ _).mp harena)]
    rfl
  unfold advertise_info
  simp only [hscfree, Option.isSome_none, Bool.false_eq_true, if_false, hfat, hg]
  rw [if_pos hstrat]
  rw [show ({ s with
      pubIndex := (pfx ++ [x], pfx ++ [x]) :: s.pubIndex
      items := (pfx ++ [x], ⟨σ, [], []⟩) :: s.items } : RV) =
    (⟨s.scopeIndex, (pfx ++ [x], pfx ++ [x]) :: s.pubIndex, s.scopes,
      (pfx ++ [x], ⟨σ, [], []⟩) :: s.items, s.hosts⟩ : RV) from rfl]
  rw [hlink]
  rw [show alookup (pfx ++ [x]) ((pfx ++ [x], ⟨σ, [h], []⟩) :: s.items) =
    some ⟨σ, [h], []⟩ from by rw [alookup_cons, if_pos rfl]]
  exact ⟨rfl, rfl⟩

theorem unpublish_info_eval (s : RV) (h : Label) (x : Frag) (pfx : FullID)
    (σ : Nat) (fc : FullID) (fe : Entity)
    (hpfx : pfx ≠ [])
    (hfat : getScope s pfx = some (fc, fe))
    (hfreeP : alookup (pfx ++ [x]) s.pubIndex = none)
    (hcanonP : (pfx ++ [x]) ∉ s.pubIndex.map Prod.snd)
    (harena : alookup (pfx ++ [x]) s.items = none)
    (hhost : ∀ r, (h, r) ∈ s.hosts → (pfx ++ [x]) ∉ r.publishedItems)
    (hfene : ¬(fe.publishers = [] ∧ fe.subscribers = [] ∧ childKeys s fc = [])) :
    (unpublish_info_at
      (⟨s.scopeIndex, (pfx ++ [x], pfx ++ [x]) :: s.pubIndex, s.scopes,
        (pfx ++ [x], ⟨σ, [h], []⟩) :: s.items,
        aupdate h (fun r => { r with publishedItems := insertL (pfx ++ [x]) r.publishedItems })
          s.hosts⟩ : RV)
      h (pfx ++ [x]) σ).1 = s ∧
    (unpublish_info_at
      (⟨s.scopeIndex, (pfx ++ [x], pfx ++ [x]) :: s.pubIndex, s.scopes,
        (pfx ++ [x], ⟨σ, [h], []⟩) :: s.items,
        aupdate h (fun r => { r with publishedItems := insertL (pfx ++ [x]) r.publishedItems })
          s.hosts⟩ : RV)
      h (pfx ++ [x]) σ).2.1 = SUCCESS := by
  obtain ⟨hfat1, hfat2⟩ := getScope_eq_some hfat
  have hg : getItem
      (⟨s.scopeIndex, (pfx ++ [x], pfx ++ [x]) :: s.pubIndex, s.scopes,
        (pfx ++ [x], ⟨σ, [h], []⟩) :: s.items,
        aupdate h (fun r => { r with publishedItems := insertL (pfx ++ [x]) r.publishedItems })
          s.hosts⟩ : RV) (pfx ++ [x]) = some (pfx ++ [x], ⟨σ, [h], []⟩) := by
    unfold getItem
    rw [alookup_cons, if_pos rfl]
    simp only []
    rw [alookup_cons, if_pos rfl]
  have hunlink : unlinkItemPublisher
      (⟨s.scopeIndex, (pfx ++ [x], pfx ++ [x]) :: s.pubIndex, s.scopes,
        (pfx ++ [x], ⟨σ, [h], []⟩) :: s.items,
        aupdate h (fun r => { r with publishedItems := insertL (pfx ++ [x]) r.publishedItems })
          s.hosts⟩ : RV) (pfx ++ [x]) (pfx ++ [x]) h =
      ⟨s.scopeIndex, (pfx ++ [x], pfx ++ [x]) :: s.pubIndex, s.scopes,
        (pfx ++ [x], ⟨σ, [], []⟩) :: s.items, s.hosts⟩ := by
    unfold unlinkItemPublisher
    congr 1
    · rw [aupdate_cons, if_pos rfl, aupdate_of_not_mem _ ((alookup_eq_none _ _).mp harena),
        eraseL_cons, if_pos rfl]
      rfl
    · rw [aupdate_aupdate]
      exact aupdate_id_of (fun r hr => by
        show HostRec.mk r.publishedScopes r.subscribedScopes
          (eraseL (pfx ++ [x]) (insertL (pfx ++ [x]) r.publishedItems)) r.subscribedItems = r
        rw [eraseL_insertL (hhost r hr)])
  unfold unpublish_info_at
  rw [hg]
  simp only []
  rw [if_true, hunlink]
  unfold gcItemIfEmpty
  rw [show alookup (pfx ++ [x]) ((pfx ++ [x], ⟨σ, [], []⟩) :: s.items) =
    some ⟨σ, [], []⟩ from by rw [alookup_cons, if_pos rfl]]
  simp only []
  rw [if_pos (⟨trivial, trivial⟩ : True ∧ True)]
  rw [show List.filter (fun p => decide (p.2 ≠ pfx ++ [x]))
      ((pfx ++ [x], pfx ++ [x]) :: s.pubIndex) = s.pubIndex from by
    rw [List.filter_cons, if_neg (by simp)]
    exact List.filter_eq_self.mpr (fun p hp => by
      simp only [decide_eq_true_eq]
      intro hp2
      exact hcanonP (hp2 ▸ List.mem_map_of_mem Prod.snd hp))]
  rw [show aerase (pfx ++ [x]) ((pfx ++ [x], ⟨σ, [], []⟩) :: s.items) = s.items from by
    rw [aerase_cons, if_pos rfl, aerase_of_not_mem ((alookup_eq_none _ _).mp harena)]]
  rw [show itemFatherCanons
      (⟨s.scopeIndex, (pfx ++ [x], pfx ++ [x]) :: s.pubIndex, s.scopes,
        (pfx ++ [x], ⟨σ, [], []⟩) :: s.items, s.hosts⟩ : RV) (pfx ++ [x]) = [fc] from by
    unfold itemFatherCanons
    rw [show itemIds (⟨s.scopeIndex, (pfx ++ [x], pfx ++ [x]) :: s.pubIndex, s.scopes,
        (pfx ++ [x], ⟨σ, [], []⟩) :: s.items, s.hosts⟩ : RV) (pfx ++ [x]) = [pfx ++ [x]] from by
      show idsToCanon ((pfx ++ [x], pfx ++ [x]) :: s.pubIndex) (pfx ++ [x]) = _
      rw [idsToCanon_cons, if_pos rfl, idsToCanon_eq_nil hcanonP]]
    unfold fathersOfIds
    simp only []
    rw [List.filter_cons, if_pos (by
      simp only [decide_eq_true_eq]
      rw [List.length_append]
      simp
      exact List.length_pos.mpr hpfx)]
    rw [List.filter_nil, List.filterMap_cons, List.filterMap_nil]
    rw [List.dropLast_concat,
      show (⟨s.scopeIndex, (pfx ++ [x], pfx ++ [x]) :: s.pubIndex, s.scopes,
        (pfx ++ [x], ⟨σ, [], []⟩) :: s.items, s.hosts⟩ : RV).scopeIndex = s.scopeIndex from rfl,
      hfat1]]
  rw [show fuelOf (⟨s.scopeIndex, s.pubIndex, s.scopes, s.items, s.hosts⟩ : RV) =
    (⟨s.scopeIndex, s.pubIndex, s.scopes, s.items, s.hosts⟩ : RV).scopes.length + 1 from rfl]
  rw [gcScopes_skip _ _ fc [] fe hfat2 (fun hcol => hfene hcol), gcScopes_nil]
  exact ⟨rfl, trivial⟩

/-! ## Claims -/

/-- Claim C10: the topology-manager request emitted by
`requestTMAssistanceForNotifyingSubscribers` does not depend on its
`request_type` argument: for any two values of `request_type` and identical
remaining arguments, the emitted request is identical, so a receiver cannot
distinguish why subscribers are being notified. -/
theorem claim_C10 (t₁ t₂ : Nat) (IDs : List FullID) (subs : List Label)
    (strategy : Nat) :
    requestTMAssistanceForNotifyingSubscribers t₁ IDs subs strategy =
      requestTMAssistanceForNotifyingSubscribers t₂ IDs subs strategy := rfl

/-- Claim C3, as stated, is false: the `MATCH_PUB_SUBS` request emitted for a
domain-local item carries the publisher labels, the subscriber labels and the
item's identifiers, but — per the source's own `@todo` — not the strategy
byte: at a concrete input the emitted request differs from one that carries
the strategy byte as the specification's rendezvous section words it. -/
theorem claim_C3_counterexample :
    rendezvousCore ⟨[([1], [1])], [([1, 2], [1, 2])], [([1], ⟨DOMAIN_LOCAL, [100], [101]⟩)],
        [([1, 2], ⟨DOMAIN_LOCAL, [100], [101]⟩)], []⟩ [1, 2]
        ⟨DOMAIN_LOCAL, [100], [101]⟩ [101] =
      [Event.tmRequest (mkMatchPubSubsPayload [100] [101] [[1, 2]])] ∧
    mkMatchPubSubsPayload [100] [101] [[1, 2]] ≠
      mkMatchPubSubsPayloadSpec [100] [101] [[1, 2]] DOMAIN_LOCAL := by
  constructor
  · rfl
  · decide

/-- Claim C3 (amended): for an item whose dissemination strategy is
domain-local (the strategy requiring topology-manager rendezvous
assistance), whenever a publisher and a subscriber exist the rendezvous
engine emits exactly one `MATCH_PUB_SUBS` request, and that request contains
the publisher label set, the subscriber label set and the item's full set of
identifiers — but not the strategy byte, which the source's
`requestTMAssistanceForRendezvous` does not yet include. -/
theorem claim_C3 (s : RV) (c : FullID) (e : Entity) (subs : List Label)
    (hstrat : e.strategy = DOMAIN_LOCAL) (hp : e.publishers ≠ []) (hs : subs ≠ []) :
    rendezvousCore s c e subs =
      [Event.tmRequest (mkMatchPubSubsPayload e.publishers subs (itemIds s c))] := by
  unfold rendezvousCore
  rw [if_pos ⟨hp, hs⟩, hstrat]
  norm_num [NODE_LOCAL, LINK_LOCAL, DOMAIN_LOCAL, requestTMAssistanceForRendezvous]

/-- Witness for C3 at a concrete input. -/
theorem claim_C3_witness :
    (⟨DOMAIN_LOCAL, [100], [101]⟩ : Entity).strategy = DOMAIN_LOCAL ∧
      (⟨DOMAIN_LOCAL, [100], [101]⟩ : Entity).publishers ≠ [] ∧
      ([101] : List Label) ≠ [] ∧
      rendezvousCore RV.empty [1, 2] ⟨DOMAIN_LOCAL, [100], [101]⟩ [101] =
        [Event.tmRequest (mkMatchPubSubsPayload [100] [101] (itemIds RV.empty [1, 2]))] :=
  ⟨rfl, by decide, by decide,
    claim_C3 RV.empty [1, 2] ⟨DOMAIN_LOCAL, [100], [101]⟩ [101] rfl (by decide) (by decide)⟩

/-- Claim C2, as stated, is false: when a multi-parent (republished) item is
advertised, `advertise_info` collects subscribers only from the item and the
father scope named by the request's prefix, missing subscribers of the other
father.  Concretely: item `1/4` also carries identifier `2/5`; host 101
subscribes to scope `2`; a further advertise of `1/4` succeeds but re-runs
rendezvous with an empty subscriber set (it emits `STOP_PUBLISH`), even
though the union over all ancestor paths contains 101. -/
theorem claim_C2_counterexample :
    (let s₁ := (publish_scope RV.empty 100 [1] [] DOMAIN_LOCAL).1
    let s₂ := (publish_scope s₁ 100 [2] [] DOMAIN_LOCAL).1
    let s₃ := (publish_info s₂ 100 [4] [1] DOMAIN_LOCAL).1
    let s₄ := (publish_info s₃ 100 [1, 4, 5] [2] DOMAIN_LOCAL).1
    let s₅ := (subscribe_scope s₄ 101 [2] [] DOMAIN_LOCAL).1
    (publish_info s₅ 100 [4] [1] DOMAIN_LOCAL).2.1 = SUCCESS ∧
      (publish_info s₅ 100 [4] [1] DOMAIN_LOCAL).2.2 = [Event.stopPublish [[2, 5], [1, 4]]] ∧
      101 ∈ fullItemClosure (publish_info s₅ 100 [4] [1] DOMAIN_LOCAL).1 [1, 4] ∧
      101 ∉ advertiseSubs s₅ [1] [1, 4]) := by
  decide

/-- Claim C2 (amended): the subscriber closure `fullItemClosure` used by the
re-rendezvous paths (readvertise, subscribe, unsubscribe, unpublish) is
exactly the union of the item's own subscribers and the subscribers of every
ancestor scope along every path; `advertise_info` instead uses only the
item's subscribers and the ancestor closure of the single father scope named
by the request's prefix. -/
theorem claim_C2 (s : RV) (c : FullID) (l : Label) :
    (l ∈ fullItemClosure s c ↔
      l ∈ subsOfItem s c ∨ ∃ a, a ∈ itemAncestors s c ∧ l ∈ subsOfScope s a) ∧
    ∀ fc : FullID, l ∈ advertiseSubs s fc c ↔
      l ∈ subsOfItem s c ∨ l ∈ scopeSubsClosure (fuelOf s) s fc := by
  constructor
  · unfold fullItemClosure itemAncestors
    rw [List.mem_append, List.mem_flatMap]
    constructor
    · rintro (hl | ⟨f, hf, hlf⟩)
      · exact Or.inl hl
      · obtain ⟨a, ha, hla⟩ := (scopeSubsClosure_mem (fuelOf s) s f l).1 hlf
        refine Or.inr ⟨a, ?_, hla⟩
        rw [List.mem_flatMap]
        exact ⟨f, hf, ha⟩
    · rintro (hl | ⟨a, ha, hla⟩)
      · exact Or.inl hl
      · rw [List.mem_flatMap] at ha
        obtain ⟨f, hf, haf⟩ := ha
        exact Or.inr ⟨f, hf, (scopeSubsClosure_mem (fuelOf s) s f l).2 ⟨a, haf, hla⟩⟩
  · intro fc
    unfold advertiseSubs
    rw [List.mem_append]

/-- Claim C1, as stated, is false: a failing request from a previously
unknown host still creates that host's (empty) record in `pub_sub_Index`,
because `push` resolves the issuer through the lazily-creating
`getRemoteHost` before dispatching.  Concretely, a `SUBSCRIBE_INFO` request
from the unknown host 42 for an item whose parent scope does not exist is
answered `PARENT_DOES_NOT_EXIST`, yet the graph store differs from its
pre-request value. -/
theorem claim_C1_counterexample :
    (push RV.empty ⟨[ROOT_WILDCARD], 42, SUBSCRIBE_INFO, [7], [9], DOMAIN_LOCAL⟩).2.1 =
        some PARENT_DOES_NOT_EXIST ∧
      (push RV.empty ⟨[ROOT_WILDCARD], 42, SUBSCRIBE_INFO, [7], [9], DOMAIN_LOCAL⟩).1 ≠
        RV.empty := by
  decide

/-- Claim C1 (amended): a request that does not return `SUCCESS` leaves
`scopeIndex`, `pubIndex`, the scope and item records, and every existing
host's sets exactly as they were, and emits no notification; the only
possible change is the lazy creation of an empty host record for the
issuer's label in `pub_sub_Index`. -/
theorem claim_C1 (s : RV) (p : Packet) (hne : (push s p).2.1 ≠ some SUCCESS) :
    (push s p).1.scopeIndex = s.scopeIndex ∧
      (push s p).1.pubIndex = s.pubIndex ∧
      (push s p).1.scopes = s.scopes ∧
      (push s p).1.items = s.items ∧
      (push s p).1.hosts =
        (if p.envScope = [ROOT_WILDCARD] then ensureHost s p.envLabel else s).hosts ∧
      (push s p).2.2 = [] := by
  obtain ⟨h1, h2⟩ := push_fail s p hne
  rw [h1]
  by_cases he : p.envScope = [ROOT_WILDCARD]
  · rw [if_pos he]
    obtain ⟨ha, hb, hc, hd⟩ := ensureHost_frame s p.envLabel
    exact ⟨ha, hb, hc, hd, rfl, h2⟩
  · rw [if_neg he]
    exact ⟨rfl, rfl, rfl, rfl, rfl, h2⟩

/-- Witness for C1 at a concrete input: a failing request from a host that is
already known leaves the graph store exactly unchanged. -/
theorem claim_C1_witness :
    (push ⟨[], [], [], [], [(5, emptyHost)]⟩
          ⟨[ROOT_WILDCARD], 5, PUBLISH_INFO, [7], [9], DOMAIN_LOCAL⟩).2.1 ≠ some SUCCESS ∧
      (push ⟨[], [], [], [], [(5, emptyHost)]⟩
          ⟨[ROOT_WILDCARD], 5, PUBLISH_INFO, [7], [9], DOMAIN_LOCAL⟩).1.scopeIndex = [] :=
  ⟨by decide, (claim_C1 _ _ (by decide)).1⟩

/-- Claim C8, as stated, is false: a malformed packet is indeed answered
without touching the information graph, but when it comes from a previously
unknown host its (empty) host record is still created in `pub_sub_Index`, so
the graph store as a whole changes.  Concretely, a `PUBLISH_SCOPE` request of
impossible shape (empty `ID`) from the unknown host 43 is answered with the
shape error, yet the store differs afterwards. -/
theorem claim_C8_counterexample :
    malformed ⟨[ROOT_WILDCARD], 43, PUBLISH_SCOPE, [], [], DOMAIN_LOCAL⟩ ∧
      (push RV.empty ⟨[ROOT_WILDCARD], 43, PUBLISH_SCOPE, [], [], DOMAIN_LOCAL⟩).2.1 =
        some WRONG_SHAPE ∧
      (push RV.empty ⟨[ROOT_WILDCARD], 43, PUBLISH_SCOPE, [], [], DOMAIN_LOCAL⟩).1 ≠
        RV.empty := by
  decide

/-- Claim C8 (amended): every malformed inbound packet (envelope not of the
control form, unknown type byte, or impossible identifier shape) is dropped
(`none`) or answered with the shape error code; `scopeIndex`, `pubIndex`, the
scope and item records and every existing host's sets are untouched and no
notification is emitted — the only possible change is the lazy creation of an
empty host record for the issuer. -/
theorem claim_C8 (s : RV) (p : Packet) (hm : malformed p) :
    ((push s p).2.1 = none ∨ (push s p).2.1 = some WRONG_SHAPE) ∧
      (push s p).1.scopeIndex = s.scopeIndex ∧
      (push s p).1.pubIndex = s.pubIndex ∧
      (push s p).1.scopes = s.scopes ∧
      (push s p).1.items = s.items ∧
      (push s p).1.hosts =
        (if p.envScope = [ROOT_WILDCARD] then ensureHost s p.envLabel else s).hosts ∧
      (push s p).2.2 = [] := by
  have hst : (push s p).2.1 = none ∨ (push s p).2.1 = some WRONG_SHAPE := by
    by_cases he : p.envScope = [ROOT_WILDCARD]
    · rcases hm with hbad | hr | ⟨hr, hsh⟩ | ⟨hr, hsh⟩ | ⟨hr, hsh⟩ | ⟨hr, hsh⟩
      · exact absurd he hbad
      · rw [push_rtype_unknown s p he hr]
        exact Or.inl rfl
      · rcases hr with hr | hr
        · rw [push_rtype_publish_scope s p he hr, publish_scope_shape _ _ _ _ _ ?_]
          · exact Or.inr rfl
          · rintro (hl | ⟨ha, hb⟩)
            · exact hsh (Or.inl hl)
            · exact hsh (Or.inr ⟨ha, hb, hr⟩)
        · rw [push_rtype_subscribe_scope s p he hr,
            subscribe_scope_shape _ _ _ _ _ (fun hl => hsh (Or.inl hl))]
          exact Or.inr rfl
      · rw [push_rtype_publish_info s p he hr, publish_info_shape _ _ _ _ _ hsh]
        exact Or.inr rfl
      · rcases hr with hr | hr
        · rw [push_rtype_unpublish_scope s p he hr, unpublish_scope_shape _ _ _ _ _ hsh]
          exact Or.inr rfl
        · rw [push_rtype_unsubscribe_scope s p he hr, unsubscribe_scope_shape _ _ _ _ _ hsh]
          exact Or.inr rfl
      · rcases hr with hr | hr | hr
        · rw [push_rtype_unpublish_info s p he hr, unpublish_info_shape _ _ _ _ _ hsh]
          exact Or.inr rfl
        · rw [push_rtype_subscribe_info s p he hr, subscribe_info_shape _ _ _ _ _ hsh]
          exact Or.inr rfl
        · rw [push_rtype_unsubscribe_info s p he hr, unsubscribe_info_shape _ _ _ _ _ hsh]
          exact Or.inr rfl
    · rw [push_env_bad s p he]
      exact Or.inl rfl
  have hne : (push s p).2.1 ≠ some SUCCESS := by
    rcases hst with hst | hst <;> rw [hst] <;> decide
  obtain ⟨h1, h2⟩ := push_fail s p hne
  rw [h1]
  by_cases he : p.envScope = [ROOT_WILDCARD]
  · rw [if_pos he]
    obtain ⟨ha, hb, hc, hd⟩ := ensureHost_frame s p.envLabel
    exact ⟨hst, ha, hb, hc, hd, rfl, h2⟩
  · rw [if_neg he]
    exact ⟨hst, rfl, rfl, rfl, rfl, rfl, h2⟩

/-- Witness for C8 at a concrete input: an unknown-type packet from an
already known host is dropped. -/
theorem claim_C8_witness :
    malformed ⟨[ROOT_WILDCARD], 6, 99, [1], [], 0⟩ ∧
      ((push ⟨[], [], [], [], [(6, emptyHost)]⟩ ⟨[ROOT_WILDCARD], 6, 99, [1], [], 0⟩).2.1 =
          none ∨
        (push ⟨[], [], [], [], [(6, emptyHost)]⟩ ⟨[ROOT_WILDCARD], 6, 99, [1], [], 0⟩).2.1 =
          some WRONG_SHAPE) :=
  ⟨by decide, (claim_C8 _ _ (by decide)).1⟩

/-- Claim C5, as stated, is false: `republish_inner_scope` checks the request
strategy only against the target father's strategy, never against the source
scope's own strategy, so republishing a link-local scope under a domain-local
father succeeds and leaves an entity registered under a parent whose strategy
differs from its own.  Concretely: scope `1` (link-local) republished as
`2/3` under the domain-local scope `2`. -/
theorem claim_C5_counterexample :
    (let s₁ := (publish_scope RV.empty 100 [1] [] LINK_LOCAL).1
    let s₂ := (publish_scope s₁ 100 [2] [] DOMAIN_LOCAL).1
    (publish_scope RV.empty 100 [1] [] LINK_LOCAL).2.1 = SUCCESS ∧
      (publish_scope s₁ 100 [2] [] DOMAIN_LOCAL).2.1 = SUCCESS ∧
      (publish_scope s₂ 100 [1, 3] [2] DOMAIN_LOCAL).2.1 = SUCCESS ∧
      (getScope (publish_scope s₂ 100 [1, 3] [2] DOMAIN_LOCAL).1 [2, 3]).map
          (fun q => q.2.strategy) = some LINK_LOCAL ∧
      (getScope (publish_scope s₂ 100 [1, 3] [2] DOMAIN_LOCAL).1 [2]).map
          (fun q => q.2.strategy) = some DOMAIN_LOCAL ∧
      ([2, 3] : FullID).dropLast = [2] ∧ LINK_LOCAL ≠ DOMAIN_LOCAL) := by
  decide

/-- Claim C5 (amended): for the cited handlers `publish_inner_scope` and
`advertise_info`, a request whose strategy differs from the existing
entity's (or, at creation, from the father scope's) strategy is rejected
with `STRATEGY_MISMATCH` and the store is unchanged; on success an existing
entity keeps its strategy and a created entity inherits the father's, so
these paths never produce a child whose strategy differs from the parent's.
`republish_inner_scope`, however, checks the request strategy only against
the target father, so a republished entity may carry a different strategy
than its new parent (see the counterexample). -/
theorem claim_C5 (s : RV) (h : Label) (ID prefixID : FullID) (strategy : Nat)
    (fc : FullID) (fe : Entity) (hf : getScope s prefixID = some (fc, fe)) :
    (alookup (prefixID ++ ID) s.pubIndex = none →
      (∀ c e, getScope s (prefixID ++ ID) = some (c, e) →
        (e.strategy ≠ strategy →
          publish_inner_scope s h ID prefixID strategy = (s, STRATEGY_MISMATCH, [])) ∧
        (e.strategy = strategy →
          ∃ e', alookup c (publish_inner_scope s h ID prefixID strategy).1.scopes = some e' ∧
            e'.strategy = e.strategy)) ∧
      (getScope s (prefixID ++ ID) = none →
        (fe.strategy ≠ strategy →
          publish_inner_scope s h ID prefixID strategy = (s, STRATEGY_MISMATCH, [])) ∧
        (fe.strategy = strategy →
          alookup (prefixID ++ ID) (publish_inner_scope s h ID prefixID strategy).1.scopes =
            some ⟨fe.strategy, [h], []⟩))) ∧
    (alookup (prefixID ++ ID) s.scopeIndex = none →
      (∀ c e, getItem s (prefixID ++ ID) = some (c, e) →
        (e.strategy ≠ strategy →
          advertise_info s h ID prefixID strategy = (s, STRATEGY_MISMATCH, [])) ∧
        (e.strategy = strategy →
          ∃ e', alookup c (advertise_info s h ID prefixID strategy).1.items = some e' ∧
            e'.strategy = e.strategy)) ∧
      (getItem s (prefixID ++ ID) = none →
        (fe.strategy ≠ strategy →
          advertise_info s h ID prefixID strategy = (s, STRATEGY_MISMATCH, [])) ∧
        (fe.strategy = strategy →
          alookup (prefixID ++ ID) (advertise_info s h ID prefixID strategy).1.items =
            some ⟨fe.strategy, [h], []⟩))) := by
  constructor
  · intro hpub
    constructor
    · intro c e hg
      constructor
      · intro hmis
        unfold publish_inner_scope
        simp only [hpub, Option.isSome_none, Bool.false_eq_true, if_false, hf, hg]
        rw [if_neg hmis]
      · intro hmat
        unfold publish_inner_scope
        simp only [hpub, Option.isSome_none, Bool.false_eq_true, if_false, hf, hg]
        rw [if_pos hmat]
        obtain ⟨-, h2⟩ := getScope_eq_some hg
        refine ⟨{ e with publishers := insertL h e.publishers }, ?_, rfl⟩
        show alookup c (linkScopePublisher s c (prefixID ++ ID) h).scopes = _
        unfold linkScopePublisher
        rw [alookup_aupdate, if_pos rfl, h2]
        rfl
    · intro hg
      constructor
      · intro hmis
        unfold publish_inner_scope
        simp only [hpub, Option.isSome_none, Bool.false_eq_true, if_false, hf, hg]
        rw [if_neg hmis]
      · intro hmat
        unfold publish_inner_scope
        simp only [hpub, Option.isSome_none, Bool.false_eq_true, if_false, hf, hg]
        rw [if_pos hmat]
        show alookup (prefixID ++ ID) (linkScopePublisher _ (prefixID ++ ID) (prefixID ++ ID) h).scopes = _
        unfold linkScopePublisher
        rw [alookup_aupdate, if_pos rfl]
        show Option.map _ (alookup (prefixID ++ ID)
          ((prefixID ++ ID, ⟨strategy, [], []⟩) :: s.scopes)) = _
        rw [alookup_cons, if_pos rfl, hmat]
        rfl
  · intro hsc
    constructor
    · intro c e hg
      constructor
      · intro hmis
        unfold advertise_info
        simp only [hsc, Option.isSome_none, Bool.false_eq_true, if_false, hf, hg]
        rw [if_neg hmis]
      · intro hmat
        unfold advertise_info
        simp only [hsc, Option.isSome_none, Bool.false_eq_true, if_false, hf, hg]
        rw [if_pos hmat]
        obtain ⟨-, h2⟩ := getItem_eq_some hg
        have hlink : alookup c (linkItemPublisher s c (prefixID ++ ID) h).items =
            some { e with publishers := insertL h e.publishers } := by
          unfold linkItemPublisher
          rw [alookup_aupdate, if_pos rfl, h2]
          rfl
        refine ⟨{ e with publishers := insertL h e.publishers }, ?_, rfl⟩
        rw [hlink]
        exact hlink
      -- note: the `.1` of both rendezvous branches is the linked state
    · intro hg
      constructor
      · intro hmis
        unfold advertise_info
        simp only [hsc, Option.isSome_none, Bool.false_eq_true, if_false, hf, hg]
        rw [if_neg hmis]
      · intro hmat
        unfold advertise_info
        simp only [hsc, Option.isSome_none, Bool.false_eq_true, if_false, hf, hg]
        rw [if_pos hmat]
        have hlink : alookup (prefixID ++ ID)
            (linkItemPublisher
              { s with
                pubIndex := (prefixID ++ ID, prefixID ++ ID) :: s.pubIndex
                items := (prefixID ++ ID, ⟨strategy, [], []⟩) :: s.items }
              (prefixID ++ ID) (prefixID ++ ID) h).items =
            some ⟨fe.strategy, [h], []⟩ := by
          unfold linkItemPublisher
          rw [alookup_aupdate, if_pos rfl]
          show Option.map _ (alookup (prefixID ++ ID)
            ((prefixID ++ ID, ⟨strategy, [], []⟩) :: s.items)) = _
          rw [alookup_cons, if_pos rfl, hmat]
          rfl
        rw [hlink]
        exact hlink

/-- Claim C4, as stated, is false: `unpublish_scope` removes only the
requested identifier branch of a scope, so a scope republished under a
second identifier survives the unpublication of one branch even when it has
no publisher, no subscriber and no child — an empty entity remains in
`scopeIndex`, and no later operation of the run collects it.  Concretely:
scope `1` is republished as `2/3`; unpublishing branch `2/3` empties the
entity but leaves it registered under identifier `1`. -/
theorem claim_C4_counterexample :
    (let s₁ := (publish_scope RV.empty 100 [1] [] DOMAIN_LOCAL).1
    let s₂ := (publish_scope s₁ 100 [2] [] DOMAIN_LOCAL).1
    let s₃ := (publish_scope s₂ 100 [1, 3] [2] DOMAIN_LOCAL).1
    let s₄ := (unpublish_scope s₃ 100 [3] [2] DOMAIN_LOCAL).1
    (publish_scope RV.empty 100 [1] [] DOMAIN_LOCAL).2.1 = SUCCESS ∧
      (publish_scope s₁ 100 [2] [] DOMAIN_LOCAL).2.1 = SUCCESS ∧
      (publish_scope s₂ 100 [1, 3] [2] DOMAIN_LOCAL).2.1 = SUCCESS ∧
      (unpublish_scope s₃ 100 [3] [2] DOMAIN_LOCAL).2.1 = SUCCESS ∧
      alookup [1] s₄.scopeIndex = some [1] ∧
      alookup [1] s₄.scopes = some ⟨DOMAIN_LOCAL, [], []⟩ ∧
      childKeys s₄ [1] = []) := by
  decide

/-- Claim C4 (amended): an information item whose publisher and subscriber
sets are both emptied is deleted — every one of its identifiers leaves
`pubIndex` and the collector cascades into its father scopes; a scope left
with no publisher, no subscriber and no child by `unpublish_scope` has the
requested identifier branch removed, and the record itself is removed
exactly when that was its last identifier; `unsubscribe_scope` collects an
emptied scope entirely.  A scope republished under several identifiers may
therefore survive, empty, until each branch is unpublished. -/
theorem claim_C4 :
    (∀ (s : RV) (h : Label) (f : FullID) (σ : Nat) (c : FullID) (e : Entity),
      getItem s f = some (c, e) → e.strategy = σ →
      eraseL h e.publishers = [] → e.subscribers = [] →
      alookup c (unpublish_info_at s h f σ).1.items = none ∧
        c ∉ (unpublish_info_at s h f σ).1.pubIndex.map Prod.snd) ∧
    (∀ (s : RV) (h : Label) (f : FullID) (σ : Nat) (c : FullID) (e : Entity),
      getScope s f = some (c, e) → e.strategy = σ →
      childItemKeys s c = [] →
      eraseL h e.publishers = [] → e.subscribers = [] → childKeys s c = [] →
      f ∉ (unpublish_scope_at s h f σ).1.scopeIndex.map Prod.fst ∧
        (scopeIds s c = [f] →
          alookup c (unpublish_scope_at s h f σ).1.scopes = none)) ∧
    (∀ (s : RV) (h : Label) (f : FullID) (σ : Nat) (c : FullID) (e : Entity),
      getScope s f = some (c, e) → e.strategy = σ →
      e.publishers = [] → eraseL h e.subscribers = [] → childKeys s c = [] →
      alookup c (unsubscribe_scope_at s h f σ).1.scopes = none ∧
        c ∉ (unsubscribe_scope_at s h f σ).1.scopeIndex.map Prod.snd) := by
  refine ⟨?_, ?_, ?_⟩
  · intro s h f σ c e hg hstrat hpub hsub
    obtain ⟨h1, h2⟩ := getItem_eq_some hg
    unfold unpublish_info_at
    rw [hg]
    simp only []
    rw [if_pos hstrat]
    have hlook : alookup c (unlinkItemPublisher s c f h).items =
        some { e with publishers := eraseL h e.publishers } := by
      unfold unlinkItemPublisher
      rw [alookup_aupdate, if_pos rfl, h2]
      rfl
    show alookup c (gcItemIfEmpty (unlinkItemPublisher s c f h) c).items = none ∧ _
    unfold gcItemIfEmpty
    rw [hlook]
    simp only []
    rw [if_pos ⟨hpub, hsub⟩]
    constructor
    · rw [(gcScopes_frame _ _ _).2.1]
      show alookup c (aerase c _) = none
      rw [alookup_aerase, if_pos rfl]
    · rw [(gcScopes_frame _ _ _).1]
      exact filter_snd_not_mem _ c
  · intro s h f σ c e hg hstrat hkids hpub hsub hchild
    obtain ⟨h1, h2⟩ := getScope_eq_some hg
    unfold unpublish_scope_at
    rw [hg]
    simp only []
    rw [if_pos hstrat, hkids]
    simp only [List.foldl_nil]
    have hlook : alookup c (unlinkScopePublisher s c f h).scopes =
        some { e with publishers := eraseL h e.publishers } := by
      unfold unlinkScopePublisher
      rw [alookup_aupdate, if_pos rfl, h2]
      rfl
    rw [hlook]
    simp only []
    rw [if_pos (⟨hpub, hsub, hchild⟩ :
      ({ e with publishers := eraseL h e.publishers } : Entity).publishers = [] ∧
        ({ e with publishers := eraseL h e.publishers } : Entity).subscribers = [] ∧
        childKeys (unlinkScopePublisher s c f h) c = [])]
    have hkeyfree : ∀ t : RV, t.scopeIndex = aerase f s.scopeIndex →
        f ∉ t.scopeIndex.map Prod.fst := by
      intro t ht
      rw [ht]
      exact aerase_not_key _ f
    constructor
    · -- identifier branch removed, whatever the later pruning does
      by_cases hic : scopeIds
          { unlinkScopePublisher s c f h with
            scopeIndex := aerase f (unlinkScopePublisher s c f h).scopeIndex } c = []
      · rw [if_pos hic]
        by_cases hlen : 2 ≤ f.length
        · rw [if_pos hlen]
          cases hpc : alookup (List.dropLast f) (aerase f (unlinkScopePublisher s c f h).scopeIndex) with
          | none => exact aerase_not_key _ f
          | some pc =>
            simp only []
            exact gcScopes_not_key _ _ _ f (aerase_not_key _ f)
        · rw [if_neg hlen]
          exact aerase_not_key _ f
      · rw [if_neg hic]
        by_cases hlen : 2 ≤ f.length
        · rw [if_pos hlen]
          cases hpc : alookup (List.dropLast f) (aerase f (unlinkScopePublisher s c f h).scopeIndex) with
          | none => exact aerase_not_key _ f
          | some pc =>
            simp only []
            exact gcScopes_not_key _ _ _ f (aerase_not_key _ f)
        · rw [if_neg hlen]
          exact aerase_not_key _ f
    · intro hone
      have hic : scopeIds
          { unlinkScopePublisher s c f h with
            scopeIndex := aerase f (unlinkScopePublisher s c f h).scopeIndex } c = [] := by
        show idsToCanon (aerase f s.scopeIndex) c = []
        rw [idsToCanon_aerase]
        show eraseL f (scopeIds s c) = []
        rw [hone, eraseL_cons, if_pos rfl]
        rfl
      rw [if_pos hic]
      have hnone : alookup c
          (aerase c ({ unlinkScopePublisher s c f h with
            scopeIndex := aerase f (unlinkScopePublisher s c f h).scopeIndex }).scopes) =
          none := by
        rw [alookup_aerase, if_pos rfl]
      by_cases hlen : 2 ≤ f.length
      · rw [if_pos hlen]
        cases hpc : alookup (List.dropLast f) (aerase f (unlinkScopePublisher s c f h).scopeIndex) with
        | none => exact hnone
        | some pc =>
          simp only []
          exact gcScopes_lookup_none _ _ _ c hnone
      · rw [if_neg hlen]
        exact hnone
  · intro s h f σ c e hg hstrat hpubs hsub hchild
    obtain ⟨h1, h2⟩ := getScope_eq_some hg
    unfold unsubscribe_scope_at
    rw [hg]
    simp only []
    rw [if_pos hstrat]
    have hlook : alookup c (unlinkScopeSubscriber s c f h).scopes =
        some { e with subscribers := eraseL h e.subscribers } := by
      unfold unlinkScopeSubscriber
      rw [alookup_aupdate, if_pos rfl, h2]
      rfl
    show alookup c (gcScopes (fuelOf _) _ [c]).scopes = none ∧ _
    rw [show fuelOf (unlinkScopeSubscriber s c f h) =
      (unlinkScopeSubscriber s c f h).scopes.length + 1 from rfl]
    rw [gcScopes_succ_cons, hlook]
    simp only []
    rw [if_pos (⟨hpubs, hsub, hchild⟩ :
      ({ e with subscribers := eraseL h e.subscribers } : Entity).publishers = [] ∧
        ({ e with subscribers := eraseL h e.subscribers } : Entity).subscribers = [] ∧
        childKeys (unlinkScopeSubscriber s c f h) c = [])]
    constructor
    · apply gcScopes_lookup_none
      show alookup c (aerase c _) = none
      rw [alookup_aerase, if_pos rfl]
    · apply gcScopes_not_canon
      exact filter_snd_not_mem _ c

/-- Witness for C4 at a concrete input: unpublishing the single-publisher,
subscriber-free item `1/2` deletes it from the store. -/
theorem claim_C4_witness :
    getItem (publish_info (publish_scope RV.empty 100 [1] [] DOMAIN_LOCAL).1 100
          [2] [1] DOMAIN_LOCAL).1 [1, 2] = some ([1, 2], ⟨DOMAIN_LOCAL, [100], []⟩) ∧
      alookup [1, 2]
          (unpublish_info_at (publish_info (publish_scope RV.empty 100 [1] [] DOMAIN_LOCAL).1
              100 [2] [1] DOMAIN_LOCAL).1 100 [1, 2] DOMAIN_LOCAL).1.items = none :=
  ⟨by decide,
    (claim_C4.1 _ 100 [1, 2] DOMAIN_LOCAL [1, 2] ⟨DOMAIN_LOCAL, [100], []⟩
      (by decide) rfl (by decide) rfl).1⟩

/-- Witness for C5 at a concrete input: publishing the inner scope `1/2`
under the domain-local scope `1` creates it with the father's strategy and
the issuer as its only publisher. -/
theorem claim_C5_witness :
    getScope (publish_scope RV.empty 100 [1] [] DOMAIN_LOCAL).1 [1] =
        some ([1], ⟨DOMAIN_LOCAL, [100], []⟩) ∧
      alookup ([1] ++ [2] : FullID)
          (publish_inner_scope (publish_scope RV.empty 100 [1] [] DOMAIN_LOCAL).1 100 [2] [1]
              DOMAIN_LOCAL).1.scopes =
        some ⟨DOMAIN_LOCAL, [100], []⟩ :=
  ⟨by decide,
    (((claim_C5 _ 100 [2] [1] DOMAIN_LOCAL [1] ⟨DOMAIN_LOCAL, [100], []⟩ (by decide)).1
      (by decide)).2 (by decide)).2 rfl⟩

/-- Claim C6: a successful `unpublish_info` by a publishing host removes the
host from the item's publishers and re-runs rendezvous on the state with the
remaining publisher and subscriber sets; in particular, when the publisher
set became empty while subscribers remain, the rendezvous run consists of
the `STOP_PUBLISH` notification that `notifyLocalPublisher` publishes for a
NULL forwarding identifier. -/
theorem claim_C6 (s : RV) (h : Label) (f : FullID) (σ : Nat) (c : FullID)
    (e : Entity) (hg : getItem s f = some (c, e)) (hstrat : e.strategy = σ)
    (hmem : h ∈ e.publishers) :
    (unpublish_info_at s h f σ).2.1 = SUCCESS ∧
      (∀ e', alookup c (unpublish_info_at s h f σ).1.items = some e' →
        h ∉ e'.publishers) ∧
      (unpublish_info_at s h f σ).2.2 = rendezvousAt (unlinkItemPublisher s c f h) c ∧
      (eraseL h e.publishers = [] → e.subscribers ≠ [] →
        (unpublish_info_at s h f σ).2.2 =
          [notifyLocalPublisher (itemIds s c) none] ∧
        notifyLocalPublisher (itemIds s c) none = Event.stopPublish (itemIds s c)) := by
  obtain ⟨h1, h2⟩ := getItem_eq_some hg
  have hlook : alookup c (unlinkItemPublisher s c f h).items =
      some { e with publishers := eraseL h e.publishers } := by
    unfold unlinkItemPublisher
    rw [alookup_aupdate, if_pos rfl, h2]
    rfl
  unfold unpublish_info_at
  rw [hg]
  simp only []
  rw [if_pos hstrat]
  refine ⟨rfl, ?_, rfl, ?_⟩
  · intro e' he'
    unfold gcItemIfEmpty at he'
    rw [hlook] at he'
    simp only [] at he'
    split at he'
    · rw [(gcScopes_frame _ _ _).2.1] at he'
      simp only [] at he'
      rw [alookup_aerase, if_pos rfl] at he'
      cases he'
    · rw [hlook] at he'
      cases he'
      exact not_mem_eraseL h e.publishers
  · intro hpub hsub
    constructor
    · unfold rendezvousAt
      rw [hlook]
      simp only []
      unfold rendezvousCore
      rw [if_neg (fun hcond => hcond.1 hpub)]
      rfl
    · rfl

/-- Witness for C6 at a concrete input: host 100 unpublishes item `1/2`
while host 101 stays subscribed, and the engine emits the `STOP_PUBLISH`
notification. -/
theorem claim_C6_witness :
    (unpublish_info_at
          (subscribe_info (publish_info (publish_scope RV.empty 100 [1] [] NODE_LOCAL).1
              100 [2] [1] NODE_LOCAL).1 101 [2] [1] NODE_LOCAL).1
          100 [1, 2] NODE_LOCAL).2.1 = SUCCESS ∧
      (unpublish_info_at
          (subscribe_info (publish_info (publish_scope RV.empty 100 [1] [] NODE_LOCAL).1
              100 [2] [1] NODE_LOCAL).1 101 [2] [1] NODE_LOCAL).1
          100 [1, 2] NODE_LOCAL).2.2 =
        [notifyLocalPublisher
          (itemIds
            (subscribe_info (publish_info (publish_scope RV.empty 100 [1] [] NODE_LOCAL).1
                100 [2] [1] NODE_LOCAL).1 101 [2] [1] NODE_LOCAL).1 [1, 2]) none] :=
  ⟨(claim_C6 _ 100 [1, 2] NODE_LOCAL [1, 2] ⟨NODE_LOCAL, [100], [101]⟩
      (by decide) rfl (by decide)).1,
    ((claim_C6 _ 100 [1, 2] NODE_LOCAL [1, 2] ⟨NODE_LOCAL, [100], [101]⟩
      (by decide) rfl (by decide)).2.2.2 (by decide) (by decide)).1⟩

/-- Claim C7: a successful first-time republish of a scope (`prefixID` at
least one fragment, `ID` at least two, source and target father existing,
target identifier free, request strategy equal to the father's) adds the
target identifier `prefixID ++ lastFragment(ID)` to the source scope — which
afterwards carries it together with all its original identifiers — and
notifies the target father's direct subscribers, excluding the hosts already
subscribed via the source's other father scopes, with a `SCOPE_PUBLISHED`
carrying the source's full identifier set. -/
theorem claim_C7 (s : RV) (h : Label) (ID prefixID : FullID) (strategy : Nat)
    (sc : FullID) (se : Entity) (fc : FullID) (fe : Entity)
    (hpfx : prefixID ≠ []) (hlen : 2 ≤ ID.length)
    (hsrc : getScope s ID.dropLast = some (sc, se))
    (hfat : getScope s prefixID = some (fc, fe))
    (hfreeP : alookup (prefixID ++ ID.drop (ID.length - 1)) s.pubIndex = none)
    (hfreeS : alookup (prefixID ++ ID.drop (ID.length - 1)) s.scopeIndex = none)
    (hstrat : fe.strategy = strategy) :
    (republish_inner_scope s h ID prefixID strategy).2.1 = SUCCESS ∧
      alookup (prefixID ++ ID.drop (ID.length - 1))
          (republish_inner_scope s h ID prefixID strategy).1.scopeIndex = some sc ∧
      scopeIds (republish_inner_scope s h ID prefixID strategy).1 sc =
        (prefixID ++ ID.drop (ID.length - 1)) :: scopeIds s sc ∧
      (republish_inner_scope s h ID prefixID strategy).2.2 =
        [Event.notify SCOPE_PUBLISHED
          (fe.subscribers.filter (fun l => decide (l ∉ fatherSubsOf s sc)))
          (scopeIds (republish_inner_scope s h ID prefixID strategy).1 sc)] := by
  have hgt : getScope s (prefixID ++ ID.drop (ID.length - 1)) = none := by
    unfold getScope
    rw [hfreeS]
  unfold republish_inner_scope
  simp only [hfreeP, Option.isSome_none, Bool.false_eq_true, if_false, hfat, hgt, hsrc]
  rw [if_pos hstrat]
  refine ⟨rfl, ?_, ?_, rfl⟩
  · show alookup (prefixID ++ ID.drop (ID.length - 1))
      ((prefixID ++ ID.drop (ID.length - 1), sc) :: s.scopeIndex) = some sc
    rw [alookup_cons, if_pos rfl]
  · show idsToCanon ((prefixID ++ ID.drop (ID.length - 1), sc) :: s.scopeIndex) sc =
      (prefixID ++ ID.drop (ID.length - 1)) :: idsToCanon s.scopeIndex sc
    rw [idsToCanon_cons, if_pos rfl]

/-- Witness for C7 at the specification's republish scenario: scope `1/2` is
republished under scope `3` as `3/4`; host 101 (subscriber of `3`) is in the
notified set, host 102 (subscriber of `1`, the source's other father path) is
excluded. -/
theorem claim_C7_witness :
    (republish_inner_scope
          (subscribe_scope (subscribe_scope (publish_scope (publish_scope
              (publish_scope RV.empty 100 [1] [] DOMAIN_LOCAL).1
              100 [2] [1] DOMAIN_LOCAL).1 100 [3] [] DOMAIN_LOCAL).1
            101 [3] [] DOMAIN_LOCAL).1 102 [1] [] DOMAIN_LOCAL).1
          100 [1, 2, 4] [3] DOMAIN_LOCAL).2.1 = SUCCESS ∧
      alookup (([3] : FullID) ++ ([1, 2, 4] : FullID).drop (([1, 2, 4] : FullID).length - 1))
          (republish_inner_scope
            (subscribe_scope (subscribe_scope (publish_scope (publish_scope
                (publish_scope RV.empty 100 [1] [] DOMAIN_LOCAL).1
                100 [2] [1] DOMAIN_LOCAL).1 100 [3] [] DOMAIN_LOCAL).1
              101 [3] [] DOMAIN_LOCAL).1 102 [1] [] DOMAIN_LOCAL).1
            100 [1, 2, 4] [3] DOMAIN_LOCAL).1.scopeIndex = some [1, 2] :=
  ⟨(claim_C7 _ 100 [1, 2, 4] [3] DOMAIN_LOCAL [1, 2] ⟨DOMAIN_LOCAL, [100], []⟩
      [3] ⟨DOMAIN_LOCAL, [100], [101]⟩ (by decide) (by decide) (by decide) (by decide)
      (by decide) (by decide) rfl).1,
    (claim_C7 _ 100 [1, 2, 4] [3] DOMAIN_LOCAL [1, 2] ⟨DOMAIN_LOCAL, [100], []⟩
      [3] ⟨DOMAIN_LOCAL, [100], [101]⟩ (by decide) (by decide) (by decide) (by decide)
      (by decide) (by decide) rfl).2.1⟩

/-- Claim C9, as stated, is false: publish followed by unpublish of the same
fresh entity by the same host restores the information graph, but when the
host was previously unknown its lazily created (empty) record remains in
`pub_sub_Index`, so the graph store is not exactly its pre-publish value. -/
theorem claim_C9_counterexample :
    (let r₁ := push RV.empty ⟨[ROOT_WILDCARD], 77, PUBLISH_SCOPE, [5], [], DOMAIN_LOCAL⟩
    let r₂ := push r₁.1 ⟨[ROOT_WILDCARD], 77, UNPUBLISH_SCOPE, [5], [], DOMAIN_LOCAL⟩
    r₁.2.1 = some SUCCESS ∧ r₂.2.1 = some SUCCESS ∧
      r₂.1 ≠ RV.empty ∧ r₂.1.hosts = [(77, emptyHost)] ∧
      r₂.1.scopeIndex = [] ∧ r₂.1.scopes = []) := by
  decide

/-- Claim C9 (amended): publishing a fresh entity (root scope, inner scope or
information item) and then unpublishing it, both by the same host and with no
other host holding references to it, restores the graph store to exactly its
pre-publish state — provided (a) the issuing host already has a record in
`pub_sub_Index` (otherwise only its lazily created empty record remains), and
(b) for inner scopes and items, the father scope matches the request's
strategy and retains a publisher, a subscriber or another child, so that the
cascading collector triggered by the unpublish stops at the father (if the
father is left completely empty, the cascade collects it as well and the
store again differs from its pre-publish value). The freshness hypotheses
say the published identifier is new to both indexes and to the entity
records, has no children, and does not appear in any of the issuer's
per-host sets. -/
theorem claim_C9 :
    (∀ (s : RV) (h : Label) (x : Frag) (σ : Nat) (r₀ : HostRec),
      alookup h s.hosts = some r₀ →
      alookup [x] s.scopeIndex = none →
      [x] ∉ s.scopeIndex.map Prod.snd →
      alookup [x] s.scopes = none →
      (∀ k ∈ s.scopeIndex.map Prod.fst ++ s.pubIndex.map Prod.fst, k.dropLast ≠ [x]) →
      (∀ r, (h, r) ∈ s.hosts → [x] ∉ r.publishedScopes) →
      (push s ⟨[ROOT_WILDCARD], h, PUBLISH_SCOPE, [x], [], σ⟩).2.1 = some SUCCESS ∧
        (push (push s ⟨[ROOT_WILDCARD], h, PUBLISH_SCOPE, [x], [], σ⟩).1
          ⟨[ROOT_WILDCARD], h, UNPUBLISH_SCOPE, [x], [], σ⟩).2.1 = some SUCCESS ∧
        (push (push s ⟨[ROOT_WILDCARD], h, PUBLISH_SCOPE, [x], [], σ⟩).1
          ⟨[ROOT_WILDCARD], h, UNPUBLISH_SCOPE, [x], [], σ⟩).1 = s) ∧
    (∀ (s : RV) (h : Label) (x : Frag) (pfx : FullID) (σ : Nat) (r₀ : HostRec)
        (fc : FullID) (fe : Entity),
      alookup h s.hosts = some r₀ →
      pfx ≠ [] →
      getScope s pfx = some (fc, fe) →
      fe.strategy = σ →
      alookup (pfx ++ [x]) s.pubIndex = none →
      alookup (pfx ++ [x]) s.scopeIndex = none →
      (pfx ++ [x]) ∉ s.scopeIndex.map Prod.snd →
      alookup (pfx ++ [x]) s.scopes = none →
      (∀ k ∈ s.scopeIndex.map Prod.fst ++ s.pubIndex.map Prod.fst,
        k.dropLast ≠ pfx ++ [x]) →
      (∀ r, (h, r) ∈ s.hosts → (pfx ++ [x]) ∉ r.publishedScopes) →
      ¬(fe.publishers = [] ∧ fe.subscribers = [] ∧ childKeys s fc = []) →
      (push s ⟨[ROOT_WILDCARD], h, PUBLISH_SCOPE, [x], pfx, σ⟩).2.1 = some SUCCESS ∧
        (push (push s ⟨[ROOT_WILDCARD], h, PUBLISH_SCOPE, [x], pfx, σ⟩).1
          ⟨[ROOT_WILDCARD], h, UNPUBLISH_SCOPE, [x], pfx, σ⟩).2.1 = some SUCCESS ∧
        (push (push s ⟨[ROOT_WILDCARD], h, PUBLISH_SCOPE, [x], pfx, σ⟩).1
          ⟨[ROOT_WILDCARD], h, UNPUBLISH_SCOPE, [x], pfx, σ⟩).1 = s) ∧
    (∀ (s : RV) (h : Label) (x : Frag) (pfx : FullID) (σ : Nat) (r₀ : HostRec)
        (fc : FullID) (fe : Entity),
      alookup h s.hosts = some r₀ →
      pfx ≠ [] →
      getScope s pfx = some (fc, fe) →
      fe.strategy = σ →
      alookup (pfx ++ [x]) s.scopeIndex = none →
      alookup (pfx ++ [x]) s.pubIndex = none →
      (pfx ++ [x]) ∉ s.pubIndex.map Prod.snd →
      alookup (pfx ++ [x]) s.items = none →
      (∀ r, (h, r) ∈ s.hosts → (pfx ++ [x]) ∉ r.publishedItems) →
      ¬(fe.publishers = [] ∧ fe.subscribers = [] ∧ childKeys s fc = []) →
      (push s ⟨[ROOT_WILDCARD], h, PUBLISH_INFO, [x], pfx, σ⟩).2.1 = some SUCCESS ∧
        (push (push s ⟨[ROOT_WILDCARD], h, PUBLISH_INFO, [x], pfx, σ⟩).1
          ⟨[ROOT_WILDCARD], h, UNPUBLISH_INFO, [x], pfx, σ⟩).2.1 = some SUCCESS ∧
        (push (push s ⟨[ROOT_WILDCARD], h, PUBLISH_INFO, [x], pfx, σ⟩).1
          ⟨[ROOT_WILDCARD], h, UNPUBLISH_INFO, [x], pfx, σ⟩).1 = s) := by
  refine ⟨?_, ?_, ?_⟩
  · intro s h x σ r₀ hhostk hfree hcanon harena hchild hhost
    have hps : publish_scope s h [x] [] σ =
        (⟨([x], [x]) :: s.scopeIndex, s.pubIndex, ([x], ⟨σ, [h], []⟩) :: s.scopes, s.items,
          aupdate h (fun r => { r with publishedScopes := insertL [x] r.publishedScopes })
            s.hosts⟩, SUCCESS, []) := by
      unfold publish_scope
      rw [if_pos (⟨rfl, rfl⟩ : ([] : FullID) = [] ∧ ([x] : FullID).length = 1)]
      exact publish_root_scope_eval s h x σ hfree harena
    have hup : unpublish_scope
        (⟨([x], [x]) :: s.scopeIndex, s.pubIndex, ([x], ⟨σ, [h], []⟩) :: s.scopes, s.items,
          aupdate h (fun r => { r with publishedScopes := insertL [x] r.publishedScopes })
            s.hosts⟩ : RV) h [x] [] σ = (s, SUCCESS, []) := by
      unfold unpublish_scope
      rw [if_pos (show ([x] : FullID).length = 1 from rfl)]
      exact unpublish_root_scope_eval s h x σ hfree hcanon harena hchild hhost
    have hk1 : alookup h
        (⟨([x], [x]) :: s.scopeIndex, s.pubIndex, ([x], ⟨σ, [h], []⟩) :: s.scopes, s.items,
          aupdate h (fun r => { r with publishedScopes := insertL [x] r.publishedScopes })
            s.hosts⟩ : RV).hosts =
        some { r₀ with publishedScopes := insertL [x] r₀.publishedScopes } := by
      show alookup h (aupdate h _ s.hosts) = _
      rw [alookup_aupdate, if_pos rfl, hhostk]
      rfl
    refine ⟨?_, ?_, ?_⟩
    · rw [push_rtype_publish_scope s _ rfl rfl]
      simp only []
      rw [ensureHost_known hhostk, hps]
    · rw [push_rtype_publish_scope s _ rfl rfl]
      simp only []
      rw [ensureHost_known hhostk, hps]
      simp only []
      rw [push_rtype_unpublish_scope _ _ rfl rfl]
      simp only []
      rw [ensureHost_known hk1, hup]
    · rw [push_rtype_publish_scope s _ rfl rfl]
      simp only []
      rw [ensureHost_known hhostk, hps]
      simp only []
      rw [push_rtype_unpublish_scope _ _ rfl rfl]
      simp only []
      rw [ensureHost_known hk1, hup]
  · intro s h x pfx σ r₀ fc fe hhostk hpfx hfat hstrat hpubfree hfree hcanon harena hchild hhost hfene
    have hps : publish_scope s h [x] pfx σ =
        (⟨(pfx ++ [x], pfx ++ [x]) :: s.scopeIndex, s.pubIndex,
          (pfx ++ [x], ⟨σ, [h], []⟩) :: s.scopes, s.items,
          aupdate h (fun r => { r with publishedScopes := insertL (pfx ++ [x]) r.publishedScopes })
            s.hosts⟩, SUCCESS, [Event.notify SCOPE_PUBLISHED fe.subscribers [pfx ++ [x]]]) := by
      unfold publish_scope
      rw [if_neg (fun hc => hpfx hc.1), if_pos ⟨hpfx, rfl⟩]
      exact publish_inner_scope_eval s h x pfx σ fc fe hpubfree hfat hfree harena hstrat
    have hup : unpublish_scope
        (⟨(pfx ++ [x], pfx ++ [x]) :: s.scopeIndex, s.pubIndex,
          (pfx ++ [x], ⟨σ, [h], []⟩) :: s.scopes, s.items,
          aupdate h (fun r => { r with publishedScopes := insertL (pfx ++ [x]) r.publishedScopes })
            s.hosts⟩ : RV) h [x] pfx σ = (s, SUCCESS, []) := by
      unfold unpublish_scope
      rw [if_pos (show ([x] : FullID).length = 1 from rfl)]
      exact unpublish_inner_scope_eval s h x pfx σ fc fe hpfx hfat hfree hcanon harena
        hchild hhost hfene
    have hk1 : alookup h
        (⟨(pfx ++ [x], pfx ++ [x]) :: s.scopeIndex, s.pubIndex,
          (pfx ++ [x], ⟨σ, [h], []⟩) :: s.scopes, s.items,
          aupdate h (fun r => { r with publishedScopes := insertL (pfx ++ [x]) r.publishedScopes })
            s.hosts⟩ : RV).hosts =
        some { r₀ with publishedScopes := insertL (pfx ++ [x]) r₀.publishedScopes } := by
      show alookup h (aupdate h _ s.hosts) = _
      rw [alookup_aupdate, if_pos rfl, hhostk]
      rfl
    refine ⟨?_, ?_, ?_⟩
    · rw [push_rtype_publish_scope s _ rfl rfl]
      simp only []
      rw [ensureHost_known hhostk, hps]
    · rw [push_rtype_publish_scope s _ rfl rfl]
      simp only []
      rw [ensureHost_known hhostk, hps]
      simp only []
      rw [push_rtype_unpublish_scope _ _ rfl rfl]
      simp only []
      rw [ensureHost_known hk1, hup]
    · rw [push_rtype_publish_scope s _ rfl rfl]
      simp only []
      rw [ensureHost_known hhostk, hps]
      simp only []
      rw [push_rtype_unpublish_scope _ _ rfl rfl]
      simp only []
      rw [ensureHost_known hk1, hup]
  · intro s h x pfx σ r₀ fc fe hhostk hpfx hfat hstrat hscfree hpubfree hcanonP harena hhost hfene
    have hadv := advertise_info_eval s h x pfx σ fc fe hscfree hfat hpubfree harena hstrat
    have hpi1 : (publish_info s h [x] pfx σ).1 =
        (⟨s.scopeIndex, (pfx ++ [x], pfx ++ [x]) :: s.pubIndex, s.scopes,
          (pfx ++ [x], ⟨σ, [h], []⟩) :: s.items,
          aupdate h (fun r => { r with publishedItems := insertL (pfx ++ [x]) r.publishedItems })
            s.hosts⟩ : RV) := by
      unfold publish_info
      rw [if_pos ⟨hpfx, rfl⟩]
      exact hadv.1
    have hpi2 : (publish_info s h [x] pfx σ).2.1 = SUCCESS := by
      unfold publish_info
      rw [if_pos ⟨hpfx, rfl⟩]
      exact hadv.2
    have hui := unpublish_info_eval s h x pfx σ fc fe hpfx hfat hpubfree hcanonP harena
      hhost hfene
    have hup1 : (unpublish_info
        (⟨s.scopeIndex, (pfx ++ [x], pfx ++ [x]) :: s.pubIndex, s.scopes,
          (pfx ++ [x], ⟨σ, [h], []⟩) :: s.items,
          aupdate h (fun r => { r with publishedItems := insertL (pfx ++ [x]) r.publishedItems })
            s.hosts⟩ : RV) h [x] pfx σ).1 = s := by
      unfold unpublish_info
      rw [if_pos ⟨hpfx, rfl⟩]
      exact hui.1
    have hup2 : (unpublish_info
        (⟨s.scopeIndex, (pfx ++ [x], pfx ++ [x]) :: s.pubIndex, s.scopes,
          (pfx ++ [x], ⟨σ, [h], []⟩) :: s.items,
          aupdate h (fun r => { r with publishedItems := insertL (pfx ++ [x]) r.publishedItems })
            s.hosts⟩ : RV) h [x] pfx σ).2.1 = SUCCESS := by
      unfold unpublish_info
      rw [if_pos ⟨hpfx, rfl⟩]
      exact hui.2
    have hk1 : alookup h
        (⟨s.scopeIndex, (pfx ++ [x], pfx ++ [x]) :: s.pubIndex, s.scopes,
          (pfx ++ [x], ⟨σ, [h], []⟩) :: s.items,
          aupdate h (fun r => { r with publishedItems := insertL (pfx ++ [x]) r.publishedItems })
            s.hosts⟩ : RV).hosts =
        some { r₀ with publishedItems := insertL (pfx ++ [x]) r₀.publishedItems } := by
      show alookup h (aupdate h _ s.hosts) = _
      rw [alookup_aupdate, if_pos rfl, hhostk]
      rfl
    refine ⟨?_, ?_, ?_⟩
    · rw [push_rtype_publish_info s _ rfl rfl]
      simp only []
      rw [ensureHost_known hhostk, hpi2]
    · rw [push_rtype_publish_info s _ rfl rfl]
      simp only []
      rw [ensureHost_known hhostk, hpi1]
      rw [push_rtype_unpublish_info _ _ rfl rfl]
      simp only []
      rw [ensureHost_known hk1, hup2]
    · rw [push_rtype_publish_info s _ rfl rfl]
      simp only []
      rw [ensureHost_known hhostk, hpi1]
      rw [push_rtype_unpublish_info _ _ rfl rfl]
      simp only []
      rw [ensureHost_known hk1, hup1]

/-- Witness for C9 at a concrete input: host 100, already known, publishes
and unpublishes the fresh root scope `5`, and the store returns exactly to
its pre-publish value. -/
theorem claim_C9_witness :
    (push (⟨[], [], [], [], [(100, emptyHost)]⟩ : RV)
        ⟨[ROOT_WILDCARD], 100, PUBLISH_SCOPE, [5], [], DOMAIN_LOCAL⟩).2.1 = some SUCCESS ∧
      (push (push (⟨[], [], [], [], [(100, emptyHost)]⟩ : RV)
          ⟨[ROOT_WILDCARD], 100, PUBLISH_SCOPE, [5], [], DOMAIN_LOCAL⟩).1
        ⟨[ROOT_WILDCARD], 100, UNPUBLISH_SCOPE, [5], [], DOMAIN_LOCAL⟩).1 =
        (⟨[], [], [], [], [(100, emptyHost)]⟩ : RV) :=
  ⟨(claim_C9.1 _ 100 5 DOMAIN_LOCAL emptyHost (by decide) (by decide) (by decide)
      (by decide) (by decide)
      (fun r hr => by
        simp only [List.mem_singleton, Prod.mk.injEq, true_and] at hr
        subst hr
        decide)).1,
    (claim_C9.1 _ 100 5 DOMAIN_LOCAL emptyHost (by decide) (by decide) (by decide)
      (by decide) (by decide)
      (fun r hr => by
        simp only [List.mem_singleton, Prod.mk.injEq, true_and] at hr
        subst hr
        decide)).2.2⟩

end LocalRV
